import Mathlib

/-!
Verification of the deterministic layout placement engine of the ReTexture
repository (spatial grid, free-space analyzer, constraint scorer, candidate
generator and the placement facade).

The Python source is embedded shallowly over `ℚ`:
* float arithmetic is idealized as exact rational arithmetic;
* Python `int(...)` truncation toward zero is `pyInt`;
* Python float `%` (sign of divisor) is `pyMod`;
* log/print statements and the numeric interpolation inside human-readable
  reasoning strings are elided (no claim inspects those interpolated numbers);
* the stable Python `list.sort(reverse=True, key=...)` is modelled by a stable
  insertion sort on the same key, descending.
-/

set_option autoImplicit false

namespace ReTexture

/-- Python `int(q)`: truncation toward zero. -/
def pyInt (q : ℚ) : ℤ := if q < 0 then ⌈q⌉ else ⌊q⌋

/-- Python float `%` (result has the sign of the divisor): `a - b * ⌊a / b⌋`. -/
def pyMod (a b : ℚ) : ℚ := a - b * ⌊a / b⌋

/-- `Rectangle` from `app/core/spatial_grid.py`: immutable rectangle value. -/
structure Rectangle where
  x : ℚ
  y : ℚ
  width : ℚ
  height : ℚ
deriving DecidableEq

def Rectangle.x2 (r : Rectangle) : ℚ := r.x + r.width

def Rectangle.y2 (r : Rectangle) : ℚ := r.y + r.height

def Rectangle.center_x (r : Rectangle) : ℚ := r.x + r.width / 2

def Rectangle.center_y (r : Rectangle) : ℚ := r.y + r.height / 2

def Rectangle.area (r : Rectangle) : ℚ := r.width * r.height

/-- `Rectangle.overlaps`: strict-inequality overlap test. -/
def Rectangle.overlaps (a b : Rectangle) : Prop :=
  a.x < b.x2 ∧ a.x2 > b.x ∧ a.y < b.y2 ∧ a.y2 > b.y

instance (a b : Rectangle) : Decidable (a.overlaps b) := by
  unfold Rectangle.overlaps; infer_instance

/-- `Rectangle.overlap_area`: 0 when not overlapping, else clipped product. -/
def Rectangle.overlap_area (a b : Rectangle) : ℚ :=
  if a.overlaps b then
    max 0 (min a.x2 b.x2 - max a.x b.x) * max 0 (min a.y2 b.y2 - max a.y b.y)
  else 0

/-- `Rectangle.contains_point`: boundary-inclusive point membership. -/
def Rectangle.contains_point (r : Rectangle) (px py : ℚ) : Prop :=
  r.x ≤ px ∧ px ≤ r.x2 ∧ r.y ≤ py ∧ py ≤ r.y2

instance (r : Rectangle) (px py : ℚ) : Decidable (r.contains_point px py) := by
  unfold Rectangle.contains_point; infer_instance

lemma overlaps_comm (a b : Rectangle) : a.overlaps b ↔ b.overlaps a := by
  unfold Rectangle.overlaps
  constructor <;> rintro ⟨h1, h2, h3, h4⟩ <;> exact ⟨h2, h1, h4, h3⟩

lemma overlap_area_comm (a b : Rectangle) : a.overlap_area b = b.overlap_area a := by
  unfold Rectangle.overlap_area
  by_cases h : a.overlaps b
  · rw [if_pos h, if_pos ((overlaps_comm a b).mp h)]
    rw [min_comm a.x2, max_comm a.x, min_comm a.y2, max_comm a.y]
  · rw [if_neg h, if_neg (fun hba => h ((overlaps_comm a b).mpr hba))]

lemma overlap_area_pos_of_overlaps {a b : Rectangle}
    (ha : 0 < a.width) (hb : 0 < b.width) (ha2 : 0 < a.height) (hb2 : 0 < b.height)
    (h : a.overlaps b) : 0 < a.overlap_area b := by
  obtain ⟨h1, h2, h3, h4⟩ := h
  rw [Rectangle.overlap_area, if_pos ⟨h1, h2, h3, h4⟩]
  have hx : 0 < min a.x2 b.x2 - max a.x b.x := by
    rw [sub_pos, max_lt_iff, lt_min_iff, lt_min_iff]
    refine ⟨⟨?_, h1⟩, h2, ?_⟩
    · simp only [Rectangle.x2]; linarith
    · simp only [Rectangle.x2] at *; linarith
  have hy : 0 < min a.y2 b.y2 - max a.y b.y := by
    rw [sub_pos, max_lt_iff, lt_min_iff, lt_min_iff]
    refine ⟨⟨?_, h3⟩, h4, ?_⟩
    · simp only [Rectangle.y2]; linarith
    · simp only [Rectangle.y2] at *; linarith
  calc (0:ℚ) < (min a.x2 b.x2 - max a.x b.x) * (min a.y2 b.y2 - max a.y b.y) :=
        mul_pos hx hy
    _ = max 0 (min a.x2 b.x2 - max a.x b.x) * max 0 (min a.y2 b.y2 - max a.y b.y) := by
        rw [max_eq_right hx.le, max_eq_right hy.le]

/-- C10: with positive dimensions, `overlaps` holds iff `overlap_area` is
positive; `overlap_area` is symmetric; rectangles sharing only a vertical
boundary edge do not overlap and have zero overlap area, yet `contains_point`
accepts the shared boundary points for both rectangles. -/
theorem c10_overlap_area_characterization (a b : Rectangle)
    (haw : 0 < a.width) (hah : 0 < a.height) (hbw : 0 < b.width) (hbh : 0 < b.height) :
    (a.overlaps b ↔ 0 < a.overlap_area b) ∧
    a.overlap_area b = b.overlap_area a ∧
    (a.x2 = b.x → ¬ a.overlaps b ∧ a.overlap_area b = 0 ∧
      ∀ py, max a.y b.y ≤ py → py ≤ min a.y2 b.y2 →
        a.contains_point a.x2 py ∧ b.contains_point a.x2 py) := by
  have hno : ∀ hedge : a.x2 = b.x, ¬ a.overlaps b := by
    intro hedge hov
    obtain ⟨-, h2, -, -⟩ := hov
    rw [hedge] at h2
    exact lt_irrefl b.x h2
  refine ⟨⟨fun h => overlap_area_pos_of_overlaps haw hbw hah hbh h, fun h => ?_⟩,
    overlap_area_comm a b, fun hedge => ⟨hno hedge, ?_, fun py h1 h2 => ⟨?_, ?_⟩⟩⟩
  · by_contra hnov
    rw [Rectangle.overlap_area, if_neg hnov] at h
    exact lt_irrefl 0 h
  · rw [Rectangle.overlap_area, if_neg (hno hedge)]
  · exact ⟨by simp only [Rectangle.x2]; linarith, le_refl _,
      le_trans (le_max_left _ _) h1, le_trans h2 (min_le_left _ _)⟩
  · refine ⟨hedge.ge, ?_, le_trans (le_max_right _ _) h1, le_trans h2 (min_le_right _ _)⟩
    simp only [Rectangle.x2] at *
    linarith

/-- Witness for C10 at concrete rectangles sharing the edge `x = 10`. -/
theorem c10_witness :
    0 < (10:ℚ) ∧
    ((Rectangle.mk 0 0 10 10).overlaps (Rectangle.mk 10 0 10 10) ↔
      0 < (Rectangle.mk 0 0 10 10).overlap_area (Rectangle.mk 10 0 10 10)) ∧
    (Rectangle.mk 0 0 10 10).overlap_area (Rectangle.mk 10 0 10 10) =
      (Rectangle.mk 10 0 10 10).overlap_area (Rectangle.mk 0 0 10 10) ∧
    (¬ (Rectangle.mk 0 0 10 10).overlaps (Rectangle.mk 10 0 10 10) ∧
      (Rectangle.mk 0 0 10 10).overlap_area (Rectangle.mk 10 0 10 10) = 0 ∧
      ∀ py, max (0:ℚ) 0 ≤ py → py ≤ min (10:ℚ) 10 →
        (Rectangle.mk 0 0 10 10).contains_point 10 py ∧
        (Rectangle.mk 10 0 10 10).contains_point 10 py) := by
  have h := c10_overlap_area_characterization (Rectangle.mk 0 0 10 10)
    (Rectangle.mk 10 0 10 10) (by norm_num) (by norm_num) (by norm_num) (by norm_num)
  have hedge : (Rectangle.mk 0 0 10 10).x2 = (Rectangle.mk 10 0 10 10).x :=
    by simp [Rectangle.x2]
  refine ⟨by norm_num, h.1, h.2.1, ?_⟩
  have h3 := h.2.2 hedge
  simpa [Rectangle.x2, Rectangle.y2, hedge] using h3

/-- `Element` from `app/core/spatial_grid.py`. -/
structure Element where
  rect : Rectangle
  element_type : String
  element_id : String
  text : Option String
deriving DecidableEq

/-- `SpatialGrid` state: canvas size, grid size, per-cell element lists and
the flat `all_elements` list. The Python nested list `grid[row][col]` is
embedded as a function on indices (all accesses in the source stay within
`[0, grid_size)`). -/
structure SpatialGrid where
  canvas_width : ℚ
  canvas_height : ℚ
  grid_size : ℕ
  cells : ℕ → ℕ → List Element
  all_elements : List Element

def SpatialGrid.cell_width (g : SpatialGrid) : ℚ := g.canvas_width / g.grid_size

def SpatialGrid.cell_height (g : SpatialGrid) : ℚ := g.canvas_height / g.grid_size

/-- `SpatialGrid.__init__`: empty cells, empty flat list. -/
def SpatialGrid.empty (w h : ℚ) (gs : ℕ) : SpatialGrid :=
  ⟨w, h, gs, fun _ _ => [], []⟩

/-- `max(0, int(x / cell_width))` — first column scanned for span `x`. -/
def SpatialGrid.col_lo (g : SpatialGrid) (x : ℚ) : ℤ :=
  max 0 (pyInt (x / g.cell_width))

/-- `min(grid_size - 1, int((x + width) / cell_width))`. -/
def SpatialGrid.col_hi (g : SpatialGrid) (x width : ℚ) : ℤ :=
  min ((g.grid_size : ℤ) - 1) (pyInt ((x + width) / g.cell_width))

def SpatialGrid.row_lo (g : SpatialGrid) (y : ℚ) : ℤ :=
  max 0 (pyInt (y / g.cell_height))

def SpatialGrid.row_hi (g : SpatialGrid) (y height : ℚ) : ℤ :=
  min ((g.grid_size : ℤ) - 1) (pyInt ((y + height) / g.cell_height))

/-- `SpatialGrid.add_element`: append to `all_elements` and to every cell in
the inclusive scanned range (the Python double `for` loop over
`range(start_row, end_row + 1) × range(start_col, end_col + 1)`). -/
def SpatialGrid.add_element (g : SpatialGrid) (x y width height : ℚ)
    (element_type element_id : String) (text : Option String) : SpatialGrid :=
  let rect := Rectangle.mk x y width height
  let e := Element.mk rect element_type element_id text
  { g with
    all_elements := g.all_elements ++ [e]
    cells := fun r c =>
      if g.row_lo y ≤ (r : ℤ) ∧ (r : ℤ) ≤ g.row_hi y height ∧
         g.col_lo x ≤ (c : ℤ) ∧ (c : ℤ) ≤ g.col_hi x width then
        g.cells r c ++ [e]
      else g.cells r c }

/-- The rectangle of grid cell `(row, col)` as used by `get_density_map`. -/
def SpatialGrid.cellRect (g : SpatialGrid) (row col : ℕ) : Rectangle :=
  Rectangle.mk (col * g.cell_width) (row * g.cell_height) g.cell_width g.cell_height

/-- `SpatialGrid.get_density_map`: per-cell sum of overlap areas over the
cell area (embedded as a function on indices). -/
def SpatialGrid.get_density_map (g : SpatialGrid) : ℕ → ℕ → ℚ :=
  fun i j =>
    ((g.cells i j).map (fun e => e.rect.overlap_area (g.cellRect i j))).sum /
      (g.cell_width * g.cell_height)

/-- `SpatialGrid.get_elements_in_region`: scan the cells overlapping the
query, collect the ids of elements whose rectangles truly overlap it (the
Python id set), then return the elements of `all_elements` with those ids. -/
def SpatialGrid.get_elements_in_region (g : SpatialGrid) (x y width height : ℚ) :
    List Element :=
  let region := Rectangle.mk x y width height
  let ids : List String :=
    (List.range g.grid_size).flatMap (fun r =>
      (List.range g.grid_size).flatMap (fun c =>
        if g.row_lo y ≤ (r : ℤ) ∧ (r : ℤ) ≤ g.row_hi y height ∧
           g.col_lo x ≤ (c : ℤ) ∧ (c : ℤ) ≤ g.col_hi x width then
          ((g.cells r c).filter (fun e => decide (e.rect.overlaps region))).map
            (fun e => e.element_id)
        else []))
  g.all_elements.filter (fun e => decide (e.element_id ∈ ids))

/-- `SpatialGrid.calculate_total_overlap`: total overlap with all elements. -/
def SpatialGrid.calculate_total_overlap (g : SpatialGrid) (x y width height : ℚ) : ℚ :=
  (g.all_elements.map (fun e => e.rect.overlap_area (Rectangle.mk x y width height))).sum

/-- Input record for a single `add_element` call. -/
structure ElemSpec where
  x : ℚ
  y : ℚ
  width : ℚ
  height : ℚ
  element_type : String
  element_id : String
  text : Option String
deriving DecidableEq

def ElemSpec.toElement (e : ElemSpec) : Element :=
  Element.mk (Rectangle.mk e.x e.y e.width e.height) e.element_type e.element_id e.text

/-- A grid built by a sequence of `add_element` calls on a fresh grid. -/
def buildGrid (cw ch : ℚ) (gs : ℕ) (es : List ElemSpec) : SpatialGrid :=
  es.foldl
    (fun g e => g.add_element e.x e.y e.width e.height e.element_type e.element_id e.text)
    (SpatialGrid.empty cw ch gs)

/-! ### Scan-range arithmetic for the spatial grid -/

lemma pyInt_of_nonneg {q : ℚ} (h : 0 ≤ q) : pyInt q = ⌊q⌋ := by
  rw [pyInt, if_neg (not_lt.mpr h)]

/-- Lower scan bound: any cell index `c ≥ 0` whose cell still reaches past the
left edge of the span (`q < (c+1)·d`) is at or above `max 0 (int(q/d))`. -/
lemma scan_lo_le {d q : ℚ} (hd : 0 < d) {c : ℤ} (hc : 0 ≤ c)
    (h : q < (c + 1) * d) : max 0 (pyInt (q / d)) ≤ c := by
  rcases lt_or_le (q / d) 0 with hneg | hpos
  · rw [pyInt, if_pos hneg]
    have : (⌈q / d⌉ : ℤ) ≤ 0 := Int.ceil_le.mpr (by exact_mod_cast hneg.le)
    exact max_le hc (le_trans this hc)
  · rw [pyInt_of_nonneg hpos]
    have hlt : q / d < (c : ℚ) + 1 := by
      rw [div_lt_iff₀ hd]
      exact_mod_cast h
    have : ⌊q / d⌋ < c + 1 := by
      rw [Int.floor_lt]
      exact_mod_cast hlt
    exact max_le hc (by omega)

/-- Upper scan bound: a cell index whose cell starts strictly before the right
edge of a nonnegative span end `q` is at or below `int(q/d)`. -/
lemma le_scan_hi {d q : ℚ} (hd : 0 < d) {c : ℤ} (hq : 0 ≤ q)
    (h : (c : ℚ) * d < q) : c ≤ pyInt (q / d) := by
  rw [pyInt_of_nonneg (div_nonneg hq hd.le)]
  rw [Int.le_floor]
  rw [le_div_iff₀ hd]
  exact h.le

lemma floor_cell_lower {d v : ℚ} (hd : 0 < d) :
    (⌊v / d⌋ : ℚ) * d ≤ v := by
  rw [← le_div_iff₀ hd]
  exact Int.floor_le _

lemma floor_cell_upper {d v : ℚ} (hd : 0 < d) :
    v < ((⌊v / d⌋ : ℚ) + 1) * d := by
  rw [← div_lt_iff₀ hd]
  exact Int.lt_floor_add_one _

/-- Invariant of a populated spatial grid: every cell entry is a registered
element, every registered element sits in every grid cell its rectangle
overlaps, and every registered element lies inside the canvas with positive
dimensions. -/
structure GridInv (g : SpatialGrid) : Prop where
  cells_sub : ∀ r c : ℕ, ∀ e ∈ g.cells r c, e ∈ g.all_elements
  complete : ∀ e ∈ g.all_elements, ∀ r c : ℕ, r < g.grid_size → c < g.grid_size →
    (g.cellRect r c).overlaps e.rect → e ∈ g.cells r c
  bounded : ∀ e ∈ g.all_elements,
    0 ≤ e.rect.x ∧ 0 ≤ e.rect.y ∧ 0 < e.rect.width ∧ 0 < e.rect.height ∧
    e.rect.x + e.rect.width ≤ g.canvas_width ∧
    e.rect.y + e.rect.height ≤ g.canvas_height

lemma cell_width_pos {g : SpatialGrid} (hw : 0 < g.canvas_width)
    (hgs : 0 < g.grid_size) : 0 < g.cell_width := by
  have : (0 : ℚ) < (g.grid_size : ℚ) := by exact_mod_cast hgs
  exact div_pos hw this

lemma cell_height_pos {g : SpatialGrid} (hh : 0 < g.canvas_height)
    (hgs : 0 < g.grid_size) : 0 < g.cell_height := by
  have : (0 : ℚ) < (g.grid_size : ℚ) := by exact_mod_cast hgs
  exact div_pos hh this

/-- A cell `(r, c)` of the grid that overlaps a rectangle whose span starts at
a nonnegative coordinate lies inside the inclusive scan range computed by
`add_element` / `get_elements_in_region` for that rectangle. -/
lemma overlapping_cell_in_scan {g : SpatialGrid}
    (hw : 0 < g.canvas_width) (hh : 0 < g.canvas_height) (hgs : 0 < g.grid_size)
    {x y width height : ℚ} (hx : 0 ≤ x + width) (hy : 0 ≤ y + height)
    {r c : ℕ} (hr : r < g.grid_size) (hc : c < g.grid_size)
    (hov : (g.cellRect r c).overlaps (Rectangle.mk x y width height)) :
    g.row_lo y ≤ (r : ℤ) ∧ (r : ℤ) ≤ g.row_hi y height ∧
    g.col_lo x ≤ (c : ℤ) ∧ (c : ℤ) ≤ g.col_hi x width := by
  have hcw := cell_width_pos hw hgs
  have hch := cell_height_pos hh hgs
  obtain ⟨h1, h2, h3, h4⟩ := hov
  simp only [SpatialGrid.cellRect, Rectangle.x2, Rectangle.y2] at h1 h2 h3 h4
  refine ⟨?_, ?_, ?_, ?_⟩
  · exact scan_lo_le hch (by exact_mod_cast Nat.zero_le r) (by push_cast; linarith)
  · refine le_min (by omega) ?_
    exact le_scan_hi hch hy (by push_cast at h3 ⊢; linarith)
  · exact scan_lo_le hcw (by exact_mod_cast Nat.zero_le c) (by push_cast; linarith)
  · refine le_min (by omega) ?_
    exact le_scan_hi hcw hx (by push_cast at h1 ⊢; linarith)

/-- `add_element` preserves the grid invariant when the new rectangle lies
inside the canvas with positive dimensions. -/
lemma gridInv_add {g : SpatialGrid}
    (hw : 0 < g.canvas_width) (hh : 0 < g.canvas_height) (hgs : 0 < g.grid_size)
    (inv : GridInv g) {x y width height : ℚ} (t i : String) (txt : Option String)
    (hb : 0 ≤ x ∧ 0 ≤ y ∧ 0 < width ∧ 0 < height ∧
      x + width ≤ g.canvas_width ∧ y + height ≤ g.canvas_height) :
    GridInv (g.add_element x y width height t i txt) := by
  obtain ⟨hbx, hby, hbw, hbh, hbx2, hby2⟩ := hb
  set e : Element := Element.mk (Rectangle.mk x y width height) t i txt with he
  constructor
  · intro r c e' he'
    simp only [SpatialGrid.add_element] at he' ⊢
    by_cases hcond : g.row_lo y ≤ (r : ℤ) ∧ (r : ℤ) ≤ g.row_hi y height ∧
        g.col_lo x ≤ (c : ℤ) ∧ (c : ℤ) ≤ g.col_hi x width
    · rw [if_pos hcond] at he'
      rcases List.mem_append.mp he' with hold | hnew
      · exact List.mem_append.mpr (Or.inl (inv.cells_sub r c e' hold))
      · exact List.mem_append.mpr (Or.inr hnew)
    · rw [if_neg hcond] at he'
      exact List.mem_append.mpr (Or.inl (inv.cells_sub r c e' he'))
  · intro e' he' r c hr hc hov
    simp only [SpatialGrid.add_element] at he' hov ⊢
    rcases List.mem_append.mp he' with hold | hnew
    · by_cases hcond : g.row_lo y ≤ (r : ℤ) ∧ (r : ℤ) ≤ g.row_hi y height ∧
          g.col_lo x ≤ (c : ℤ) ∧ (c : ℤ) ≤ g.col_hi x width
      · rw [if_pos hcond]
        exact List.mem_append.mpr (Or.inl (inv.complete e' hold r c hr hc hov))
      · rw [if_neg hcond]
        exact inv.complete e' hold r c hr hc hov
    · have he'e : e' = e := List.mem_singleton.mp hnew
      subst he'e
      have hscan := overlapping_cell_in_scan hw hh hgs
        (by linarith) (by linarith) hr hc hov
      rw [if_pos hscan]
      exact List.mem_append.mpr (Or.inr (List.mem_singleton.mpr rfl))
  · intro e' he'
    simp only [SpatialGrid.add_element] at he'
    rcases List.mem_append.mp he' with hold | hnew
    · exact inv.bounded e' hold
    · have he'e : e' = e := List.mem_singleton.mp hnew
      subst he'e
      exact ⟨hbx, hby, hbw, hbh, hbx2, hby2⟩

lemma gridInv_empty (w h : ℚ) (gs : ℕ) : GridInv (SpatialGrid.empty w h gs) := by
  constructor
  · intro r c e he
    simp [SpatialGrid.empty] at he
  · intro e he
    simp [SpatialGrid.empty] at he
  · intro e he
    simp [SpatialGrid.empty] at he

/-- For an in-canvas element overlapping a positive-size query rectangle there
is a grid cell that lies in the query scan range and overlaps the element:
the cell containing the lower-left corner of the intersection. -/
lemma scan_cell_exists {g : SpatialGrid}
    (hw : 0 < g.canvas_width) (hh : 0 < g.canvas_height) (hgs : 0 < g.grid_size)
    {e : Element}
    (hbe : 0 ≤ e.rect.x ∧ 0 ≤ e.rect.y ∧ 0 < e.rect.width ∧ 0 < e.rect.height ∧
      e.rect.x + e.rect.width ≤ g.canvas_width ∧
      e.rect.y + e.rect.height ≤ g.canvas_height)
    {qx qy qw qh : ℚ} (hqw : 0 < qw) (hqh : 0 < qh)
    (hov : e.rect.overlaps (Rectangle.mk qx qy qw qh)) :
    ∃ r c : ℕ, r < g.grid_size ∧ c < g.grid_size ∧
      (g.row_lo qy ≤ (r : ℤ) ∧ (r : ℤ) ≤ g.row_hi qy qh ∧
       g.col_lo qx ≤ (c : ℤ) ∧ (c : ℤ) ≤ g.col_hi qx qw) ∧
      (g.cellRect r c).overlaps e.rect := by
  obtain ⟨hex, hey, hew, heh, hex2, hey2⟩ := hbe
  have hcw := cell_width_pos hw hgs
  have hch := cell_height_pos hh hgs
  obtain ⟨h1, h2, h3, h4⟩ := hov
  simp only [Rectangle.x2, Rectangle.y2] at h1 h2 h3 h4
  -- lower-left corner of the intersection
  set ix : ℚ := max e.rect.x qx with hix
  set iy : ℚ := max e.rect.y qy with hiy
  have hix0 : 0 ≤ ix := le_trans hex (le_max_left _ _)
  have hiy0 : 0 ≤ iy := le_trans hey (le_max_left _ _)
  have hixlt : ix < min (e.rect.x + e.rect.width) (qx + qw) := by
    rw [hix, max_lt_iff, lt_min_iff, lt_min_iff]
    exact ⟨⟨by linarith, h1⟩, h2, by linarith⟩
  have hiylt : iy < min (e.rect.y + e.rect.height) (qy + qh) := by
    rw [hiy, max_lt_iff, lt_min_iff, lt_min_iff]
    exact ⟨⟨by linarith, h3⟩, h4, by linarith⟩
  set cz : ℤ := ⌊ix / g.cell_width⌋ with hcz
  set rz : ℤ := ⌊iy / g.cell_height⌋ with hrz
  have hcz0 : 0 ≤ cz := Int.floor_nonneg.mpr (div_nonneg hix0 hcw.le)
  have hrz0 : 0 ≤ rz := Int.floor_nonneg.mpr (div_nonneg hiy0 hch.le)
  have hcanvas_w : (g.grid_size : ℚ) * g.cell_width = g.canvas_width := by
    rw [SpatialGrid.cell_width]
    field_simp
  have hcanvas_h : (g.grid_size : ℚ) * g.cell_height = g.canvas_height := by
    rw [SpatialGrid.cell_height]
    field_simp
  have hczlt : cz < (g.grid_size : ℤ) := by
    have hixcw : ix < (g.grid_size : ℚ) * g.cell_width := by
      rw [hcanvas_w]
      calc ix < min (e.rect.x + e.rect.width) (qx + qw) := hixlt
        _ ≤ e.rect.x + e.rect.width := min_le_left _ _
        _ ≤ g.canvas_width := hex2
    have : (cz : ℚ) < (g.grid_size : ℚ) := by
      calc (cz : ℚ) ≤ ix / g.cell_width := Int.floor_le _
        _ < (g.grid_size : ℚ) := by rwa [div_lt_iff₀ hcw]
    exact_mod_cast this
  have hrzlt : rz < (g.grid_size : ℤ) := by
    have hiych : iy < (g.grid_size : ℚ) * g.cell_height := by
      rw [hcanvas_h]
      calc iy < min (e.rect.y + e.rect.height) (qy + qh) := hiylt
        _ ≤ e.rect.y + e.rect.height := min_le_left _ _
        _ ≤ g.canvas_height := hey2
    have : (rz : ℚ) < (g.grid_size : ℚ) := by
      calc (rz : ℚ) ≤ iy / g.cell_height := Int.floor_le _
        _ < (g.grid_size : ℚ) := by rwa [div_lt_iff₀ hch]
    exact_mod_cast this
  refine ⟨rz.toNat, cz.toNat, ?_, ?_, ⟨?_, ?_, ?_, ?_⟩, ?_⟩
  · omega
  · omega
  · -- row_lo qy ≤ rz
    rw [Int.toNat_of_nonneg hrz0]
    apply scan_lo_le hch hrz0
    calc qy ≤ iy := le_max_right _ _
      _ < ((rz : ℚ) + 1) * g.cell_height := floor_cell_upper hch
  · rw [Int.toNat_of_nonneg hrz0, SpatialGrid.row_hi]
    refine le_min (by omega) ?_
    apply le_scan_hi hch (by nlinarith [le_max_right e.rect.y qy])
    calc (rz : ℚ) * g.cell_height ≤ iy := floor_cell_lower hch
      _ < min (e.rect.y + e.rect.height) (qy + qh) := hiylt
      _ ≤ qy + qh := min_le_right _ _
  · rw [Int.toNat_of_nonneg hcz0]
    apply scan_lo_le hcw hcz0
    calc qx ≤ ix := le_max_right _ _
      _ < ((cz : ℚ) + 1) * g.cell_width := floor_cell_upper hcw
  · rw [Int.toNat_of_nonneg hcz0, SpatialGrid.col_hi]
    refine le_min (by omega) ?_
    apply le_scan_hi hcw (by nlinarith [le_max_right e.rect.x qx])
    calc (cz : ℚ) * g.cell_width ≤ ix := floor_cell_lower hcw
      _ < min (e.rect.x + e.rect.width) (qx + qw) := hixlt
      _ ≤ qx + qw := min_le_right _ _
  · -- the chosen cell overlaps the element rectangle
    refine ⟨?_, ?_, ?_, ?_⟩
    · show (cz.toNat : ℚ) * g.cell_width < e.rect.x2
      rw [Rectangle.x2]
      have : (cz.toNat : ℚ) = (cz : ℚ) := by exact_mod_cast Int.toNat_of_nonneg hcz0
      rw [this]
      calc (cz : ℚ) * g.cell_width ≤ ix := floor_cell_lower hcw
        _ < min (e.rect.x + e.rect.width) (qx + qw) := hixlt
        _ ≤ e.rect.x + e.rect.width := min_le_left _ _
    · show (cz.toNat : ℚ) * g.cell_width + g.cell_width > e.rect.x
      have : (cz.toNat : ℚ) = (cz : ℚ) := by exact_mod_cast Int.toNat_of_nonneg hcz0
      rw [this]
      have hup : ix < ((cz : ℚ) + 1) * g.cell_width := floor_cell_upper hcw
      have hle : e.rect.x ≤ ix := le_max_left _ _
      nlinarith
    · show (rz.toNat : ℚ) * g.cell_height < e.rect.y2
      rw [Rectangle.y2]
      have : (rz.toNat : ℚ) = (rz : ℚ) := by exact_mod_cast Int.toNat_of_nonneg hrz0
      rw [this]
      calc (rz : ℚ) * g.cell_height ≤ iy := floor_cell_lower hch
        _ < min (e.rect.y + e.rect.height) (qy + qh) := hiylt
        _ ≤ e.rect.y + e.rect.height := min_le_left _ _
    · show (rz.toNat : ℚ) * g.cell_height + g.cell_height > e.rect.y
      have : (rz.toNat : ℚ) = (rz : ℚ) := by exact_mod_cast Int.toNat_of_nonneg hrz0
      rw [this]
      have hup : iy < ((rz : ℚ) + 1) * g.cell_height := floor_cell_upper hch
      have hle : e.rect.y ≤ iy := le_max_left _ _
      nlinarith

/-- Exactness of `get_elements_in_region` on an invariant-satisfying grid with
unique ids and a positive-size query: the scan returns precisely the elements
of `all_elements` whose rectangles overlap the query rectangle, in flat-list
order (hence each exactly once when ids are unique). -/
lemma get_elements_in_region_eq {g : SpatialGrid}
    (hw : 0 < g.canvas_width) (hh : 0 < g.canvas_height) (hgs : 0 < g.grid_size)
    (inv : GridInv g)
    (hnodup : (g.all_elements.map (fun e => e.element_id)).Nodup)
    {qx qy qw qh : ℚ} (hqw : 0 < qw) (hqh : 0 < qh) :
    g.get_elements_in_region qx qy qw qh =
      g.all_elements.filter
        (fun e => decide (e.rect.overlaps (Rectangle.mk qx qy qw qh))) := by
  rw [SpatialGrid.get_elements_in_region]
  apply List.filter_congr
  intro e he
  simp only [decide_eq_decide]
  constructor
  · intro hid
    simp only [List.mem_flatMap, List.mem_range] at hid
    obtain ⟨r, hr, c, hc, hmem⟩ := hid
    by_cases hcond : g.row_lo qy ≤ (r : ℤ) ∧ (r : ℤ) ≤ g.row_hi qy qh ∧
        g.col_lo qx ≤ (c : ℤ) ∧ (c : ℤ) ≤ g.col_hi qx qw
    · rw [if_pos hcond] at hmem
      simp only [List.mem_map, List.mem_filter, decide_eq_true_eq] at hmem
      obtain ⟨e2, ⟨he2cell, he2ov⟩, he2id⟩ := hmem
      have he2all : e2 ∈ g.all_elements := inv.cells_sub r c e2 he2cell
      have : e2 = e := List.inj_on_of_nodup_map hnodup he2all he he2id
      rwa [← this]
    · rw [if_neg hcond] at hmem
      exact absurd hmem (List.not_mem_nil _)
  · intro hov
    obtain ⟨r, c, hr, hc, hcond, hcell⟩ :=
      scan_cell_exists hw hh hgs (inv.bounded e he) hqw hqh hov
    simp only [List.mem_flatMap, List.mem_range]
    refine ⟨r, hr, c, hc, ?_⟩
    rw [if_pos ⟨hcond.1, hcond.2.1, hcond.2.2.1, hcond.2.2.2⟩]
    simp only [List.mem_map, List.mem_filter, decide_eq_true_eq]
    exact ⟨e, ⟨inv.complete e he r c hr hc hcell, hov⟩, rfl⟩

/-- One step of `buildGrid`. -/
def addSpec (g : SpatialGrid) (e : ElemSpec) : SpatialGrid :=
  g.add_element e.x e.y e.width e.height e.element_type e.element_id e.text

lemma buildGrid_eq_foldl (cw ch : ℚ) (gs : ℕ) (es : List ElemSpec) :
    buildGrid cw ch gs es = es.foldl addSpec (SpatialGrid.empty cw ch gs) := rfl

lemma foldl_addSpec_fields (es : List ElemSpec) (g0 : SpatialGrid) :
    (es.foldl addSpec g0).canvas_width = g0.canvas_width ∧
    (es.foldl addSpec g0).canvas_height = g0.canvas_height ∧
    (es.foldl addSpec g0).grid_size = g0.grid_size := by
  induction es generalizing g0 with
  | nil => exact ⟨rfl, rfl, rfl⟩
  | cons e es ih =>
    rw [List.foldl_cons]
    exact ih (addSpec g0 e)

lemma foldl_addSpec_all (es : List ElemSpec) (g0 : SpatialGrid) :
    (es.foldl addSpec g0).all_elements =
      g0.all_elements ++ es.map ElemSpec.toElement := by
  induction es generalizing g0 with
  | nil => simp
  | cons e es ih =>
    rw [List.foldl_cons, List.map_cons, ih (addSpec g0 e)]
    show (g0.all_elements ++ [e.toElement]) ++ es.map ElemSpec.toElement = _
    rw [List.append_assoc]
    rfl

lemma foldl_addSpec_inv (es : List ElemSpec) (g0 : SpatialGrid)
    (hw : 0 < g0.canvas_width) (hh : 0 < g0.canvas_height) (hgs : 0 < g0.grid_size)
    (inv : GridInv g0)
    (hb : ∀ e ∈ es, 0 ≤ e.x ∧ 0 ≤ e.y ∧ 0 < e.width ∧ 0 < e.height ∧
      e.x + e.width ≤ g0.canvas_width ∧ e.y + e.height ≤ g0.canvas_height) :
    GridInv (es.foldl addSpec g0) := by
  induction es generalizing g0 with
  | nil => exact inv
  | cons e es ih =>
    rw [List.foldl_cons]
    exact ih (addSpec g0 e) hw hh hgs
      (gridInv_add hw hh hgs inv e.element_type e.element_id e.text
        (hb e (List.mem_cons_self e es)))
      (fun e2 he2 => hb e2 (List.mem_cons_of_mem e he2))

/-- C8: building a grid from elements inside the canvas with pairwise distinct
ids, (a) every element is registered in every grid cell its rectangle
overlaps, and (b) `get_elements_in_region` returns exactly the elements whose
rectangles geometrically overlap the query rectangle, each exactly once (the
filter of the duplicate-free `all_elements` list). -/
theorem c8_grid_registration_and_region_query (cw ch : ℚ) (gs : ℕ)
    (es : List ElemSpec) (qx qy qw qh : ℚ)
    (hw : 0 < cw) (hh : 0 < ch) (hgs : 0 < gs)
    (hb : ∀ e ∈ es, 0 ≤ e.x ∧ 0 ≤ e.y ∧ 0 < e.width ∧ 0 < e.height ∧
      e.x + e.width ≤ cw ∧ e.y + e.height ≤ ch)
    (hid : (es.map (fun e => e.element_id)).Nodup)
    (hqw : 0 < qw) (hqh : 0 < qh) :
    (∀ e ∈ (buildGrid cw ch gs es).all_elements, ∀ r c : ℕ, r < gs → c < gs →
      ((buildGrid cw ch gs es).cellRect r c).overlaps e.rect →
        e ∈ (buildGrid cw ch gs es).cells r c) ∧
    (buildGrid cw ch gs es).get_elements_in_region qx qy qw qh =
      (buildGrid cw ch gs es).all_elements.filter
        (fun e => decide (e.rect.overlaps (Rectangle.mk qx qy qw qh))) := by
  have hfields := foldl_addSpec_fields es (SpatialGrid.empty cw ch gs)
  have hw2 : 0 < (buildGrid cw ch gs es).canvas_width := by
    rw [buildGrid_eq_foldl, hfields.1]; exact hw
  have hh2 : 0 < (buildGrid cw ch gs es).canvas_height := by
    rw [buildGrid_eq_foldl, hfields.2.1]; exact hh
  have hgs2 : 0 < (buildGrid cw ch gs es).grid_size := by
    rw [buildGrid_eq_foldl, hfields.2.2]; exact hgs
  have inv : GridInv (buildGrid cw ch gs es) := by
    rw [buildGrid_eq_foldl]
    exact foldl_addSpec_inv es (SpatialGrid.empty cw ch gs) hw hh hgs
      (gridInv_empty cw ch gs) hb
  have hall : (buildGrid cw ch gs es).all_elements = es.map ElemSpec.toElement := by
    rw [buildGrid_eq_foldl, foldl_addSpec_all]
    rfl
  have hnodup : ((buildGrid cw ch gs es).all_elements.map
      (fun e => e.element_id)).Nodup := by
    rw [hall, List.map_map]
    exact hid
  constructor
  · intro e he r c hr hc hov
    have hgseq : (buildGrid cw ch gs es).grid_size = gs := by
      rw [buildGrid_eq_foldl]; exact hfields.2.2
    exact inv.complete e he r c (by omega) (by omega) hov
  · exact get_elements_in_region_eq hw2 hh2 hgs2 inv hnodup hqw hqh

/-- Concrete elements for the C8 witness: two in-canvas elements on a 90×90
canvas with a 3×3 grid. -/
def c8Specs : List ElemSpec :=
  [ElemSpec.mk 0 0 50 50 "image" "a" none,
   ElemSpec.mk 40 40 45 45 "text" "b" none]

/-- Witness for C8 on a concrete grid and query. -/
theorem c8_witness :
    ((0:ℚ) < 90 ∧ 0 < (3:ℕ) ∧
      (c8Specs.map (fun e => e.element_id)).Nodup ∧ (0:ℚ) < 50) ∧
    (buildGrid 90 90 3 c8Specs).get_elements_in_region 5 5 50 50 =
      (buildGrid 90 90 3 c8Specs).all_elements.filter
        (fun e => decide (e.rect.overlaps (Rectangle.mk 5 5 50 50))) :=
  ⟨⟨by norm_num, by norm_num, by decide, by norm_num⟩,
   (c8_grid_registration_and_region_query 90 90 3 c8Specs 5 5 50 50
      (by norm_num) (by norm_num) (by norm_num) (by with_unfolding_all decide)
      (by decide) (by norm_num) (by norm_num)).2⟩

/-! ### `app/core/placement_constraints.py` -/

/-- `PlacementCandidate`: scored candidate. Reasoning strings keep the static
text of the source messages; numeric interpolation is elided. -/
structure PlacementCandidate where
  x : ℚ
  y : ℚ
  score : ℚ
  reasoning : List String
  method : String
deriving DecidableEq

/-- `ConstraintScorer` context (the tunable weight constants of `__init__`
are inlined at their use sites with their source values). -/
structure ConstraintScorer where
  canvas_width : ℚ
  canvas_height : ℚ
  grid : SpatialGrid
  subject_bounds : Option Rectangle

/-- `ConstraintScorer._check_hierarchy`. -/
def ConstraintScorer.check_hierarchy (s : ConstraintScorer) (y height : ℚ)
    (element_type : String) : ℚ × String :=
  let y_percent := y / s.canvas_height
  if element_type = "headline" then
    if y_percent > 3/10 then (50, "Headline too low")
    else if y_percent ≤ 15/100 then (0, "Headline in optimal position (top 15%)")
    else (0, "")
  else if element_type = "subheading" then
    if y_percent > 1/2 then (15, "Subheading too low") else (0, "")
  else if element_type = "badge" then
    if 3/10 < y_percent ∧ y_percent < 7/10 then (10, "Badge in middle (prefer corners)")
    else (0, "")
  else (0, "")

/-- `ConstraintScorer._check_collision`: penalty `overlap% × 40` over the
elements found in the candidate region. -/
def ConstraintScorer.check_collision (s : ConstraintScorer) (test_rect : Rectangle) :
    ℚ × String :=
  let overlapping := s.grid.get_elements_in_region
    test_rect.x test_rect.y test_rect.width test_rect.height
  if overlapping.isEmpty then (0, "No collisions")
  else
    let total_overlap := (overlapping.map (fun e => e.rect.overlap_area test_rect)).sum
    let overlap_percent := total_overlap / test_rect.area
    (overlap_percent * 40, "collision with elements")

/-- The fraction of `test_rect` lying inside `sb`
(`inside_percent` of `_check_subject_bounds_containment`). -/
def inside_fraction (test_rect sb : Rectangle) : ℚ :=
  if test_rect.overlaps sb then test_rect.overlap_area sb / test_rect.area else 0

/-- `ConstraintScorer._check_subject_bounds_containment` (the `element_type`
parameter is unused in the source body as well). -/
def ConstraintScorer.check_containment (s : ConstraintScorer) (test_rect : Rectangle)
    (element_type : String) : ℚ × String :=
  match s.subject_bounds with
  | none => (0, "")
  | some sb =>
    let inside_percent := inside_fraction test_rect sb
    if inside_percent ≥ 95/100 then (-30, "Fully inside canvas")
    else if inside_percent ≥ 7/10 then (-15, "Mostly inside canvas")
    else if inside_percent > 1/10 then ((1 - inside_percent) * 40, "Partially outside canvas")
    else (100, "OUTSIDE canvas boundary")

/-- `ConstraintScorer._is_grid_aligned` with the default 40px grid
(`self` is unused in the source body as well). -/
def ConstraintScorer.is_grid_aligned (s : ConstraintScorer) (x y : ℚ) : Prop :=
  (pyMod x 40 < 5 ∨ pyMod x 40 > 35) ∧ (pyMod y 40 < 5 ∨ pyMod y 40 > 35)

instance (s : ConstraintScorer) (x y : ℚ) : Decidable (s.is_grid_aligned x y) := by
  unfold ConstraintScorer.is_grid_aligned; infer_instance

/-- `ConstraintScorer._is_in_empty_region`: density of the grid cell holding
the candidate center is below 30%. The center indices are nonnegative for the
in-canvas rectangles this is invoked on, so `Int.toNat` is faithful. -/
def ConstraintScorer.is_in_empty_region (s : ConstraintScorer) (test_rect : Rectangle) :
    Prop :=
  let center_col := min (pyInt (test_rect.center_x / s.canvas_width * s.grid.grid_size))
    ((s.grid.grid_size : ℤ) - 1)
  let center_row := min (pyInt (test_rect.center_y / s.canvas_height * s.grid.grid_size))
    ((s.grid.grid_size : ℤ) - 1)
  s.grid.get_density_map center_row.toNat center_col.toNat < 3/10

instance (s : ConstraintScorer) (t : Rectangle) :
    Decidable (s.is_in_empty_region t) := by
  unfold ConstraintScorer.is_in_empty_region; infer_instance

/-- `ConstraintScorer._has_good_margins` with the default 30px margin. -/
def ConstraintScorer.has_good_margins (s : ConstraintScorer) (x y width height : ℚ) :
    Prop :=
  x ≥ 30 ∧ y ≥ 30 ∧ x + width ≤ s.canvas_width - 30 ∧ y + height ≤ s.canvas_height - 30

instance (s : ConstraintScorer) (x y w h : ℚ) :
    Decidable (s.has_good_margins x y w h) := by
  unfold ConstraintScorer.has_good_margins; infer_instance

/-- The hard canvas-bounds test of `score_placement` step 1. -/
def ConstraintScorer.out_of_bounds (s : ConstraintScorer) (x y width height : ℚ) :
    Prop :=
  x < 0 ∨ y < 0 ∨ x + width > s.canvas_width ∨ y + height > s.canvas_height

instance (s : ConstraintScorer) (x y w h : ℚ) :
    Decidable (s.out_of_bounds x y w h) := by
  unfold ConstraintScorer.out_of_bounds; infer_instance

/-- `ConstraintScorer.score_placement`: start at 100, apply the hierarchy,
collision and containment adjustments, the three bonuses, then clamp to
`[0, 100]`; out-of-canvas candidates short-circuit to the −100 sentinel. -/
def ConstraintScorer.score_placement (s : ConstraintScorer) (x y width height : ℚ)
    (element_type : String) : PlacementCandidate :=
  let test_rect := Rectangle.mk x y width height
  if s.out_of_bounds x y width height then
    PlacementCandidate.mk x y (-100) ["OUT OF BOUNDS - Invalid"] "invalid"
  else
    let hierarchy := s.check_hierarchy y height element_type
    let collision := s.check_collision test_rect
    let containment := s.check_containment test_rect element_type
    let score := 100 - hierarchy.1 - collision.1 - containment.1
      + (if s.is_grid_aligned x y then (10:ℚ) else 0)
      + (if s.is_in_empty_region test_rect then (15:ℚ) else 0)
      + (if s.has_good_margins x y width height then (5:ℚ) else 0)
    let reasoning :=
      (if hierarchy.2 ≠ "" then [hierarchy.2] else []) ++
      (if collision.2 ≠ "" then [collision.2] else []) ++
      (if containment.2 ≠ "" then [containment.2] else []) ++
      (if s.is_grid_aligned x y then ["Grid aligned"] else []) ++
      (if s.is_in_empty_region test_rect then ["Empty region"] else []) ++
      (if s.has_good_margins x y width height then ["Good margins"] else [])
    PlacementCandidate.mk x y (max 0 (min 100 score)) reasoning "scored"

/-- The collision-overlap fraction of a candidate rectangle: total overlap
area with the elements found in its region, divided by its own area. -/
def ConstraintScorer.collision_overlap_fraction (s : ConstraintScorer)
    (test_rect : Rectangle) : ℚ :=
  ((s.grid.get_elements_in_region test_rect.x test_rect.y test_rect.width
      test_rect.height).map (fun e => e.rect.overlap_area test_rect)).sum /
    test_rect.area

lemma check_collision_fst (s : ConstraintScorer) (t : Rectangle) :
    (s.check_collision t).1 = s.collision_overlap_fraction t * 40 := by
  rw [ConstraintScorer.check_collision, ConstraintScorer.collision_overlap_fraction]
  by_cases h : (s.grid.get_elements_in_region t.x t.y t.width t.height).isEmpty
  · rw [if_pos h]
    rw [List.isEmpty_iff] at h
    rw [h]
    simp
  · rw [if_neg h]

/-- C4 (counterexample): a concrete in-canvas candidate whose containment
fraction is 0 (≤ 10%) gets final score 20, not the −100 sentinel: canvas
200×200, no elements, containment bounds (0,0,10,10), candidate
(100,100,50,50) of type logo. -/
theorem c4_counterexample :
    inside_fraction (Rectangle.mk 100 100 50 50) (Rectangle.mk 0 0 10 10) ≤ 1/10 ∧
    ¬ (ConstraintScorer.mk 200 200 (SpatialGrid.empty 200 200 3)
        (some (Rectangle.mk 0 0 10 10))).out_of_bounds 100 100 50 50 ∧
    ((ConstraintScorer.mk 200 200 (SpatialGrid.empty 200 200 3)
        (some (Rectangle.mk 0 0 10 10))).score_placement 100 100 50 50 "logo").score
      = 20 := by
  refine ⟨?_, ?_, ?_⟩ <;> with_unfolding_all decide

/-- C4 (amended): an in-canvas candidate at most 10% inside the containment
bounds receives a flat 100-point containment penalty, and its final score is
still clamped into [0, 100] (the −100 is not returned as-is); a final score
of −100 occurs exactly when the candidate exceeds the canvas bounds. -/
theorem c4_containment_penalty_and_sentinel :
    (∀ (s : ConstraintScorer) (sb : Rectangle) (x y width height : ℚ) (t : String),
      s.subject_bounds = some sb →
      ¬ s.out_of_bounds x y width height →
      inside_fraction (Rectangle.mk x y width height) sb ≤ 1/10 →
      (s.check_containment (Rectangle.mk x y width height) t).1 = 100 ∧
      0 ≤ (s.score_placement x y width height t).score ∧
      (s.score_placement x y width height t).score ≤ 100) ∧
    (∀ (s : ConstraintScorer) (x y width height : ℚ) (t : String),
      (s.score_placement x y width height t).score = -100 ↔
        s.out_of_bounds x y width height) := by
  have hclamp : ∀ (s : ConstraintScorer) (x y width height : ℚ) (t : String),
      ¬ s.out_of_bounds x y width height →
      0 ≤ (s.score_placement x y width height t).score ∧
      (s.score_placement x y width height t).score ≤ 100 := by
    intro s x y width height t hin
    rw [ConstraintScorer.score_placement, if_neg hin]
    constructor
    · exact le_max_left 0 _
    · exact max_le (by norm_num) (min_le_left _ _)
  constructor
  · intro s sb x y width height t hsb hin hfrac
    refine ⟨?_, hclamp s x y width height t hin⟩
    rw [ConstraintScorer.check_containment, hsb]
    dsimp only
    rw [if_neg (by intro h; linarith), if_neg (by intro h; linarith),
      if_neg (by intro h; linarith)]
  · intro s x y width height t
    by_cases hout : s.out_of_bounds x y width height
    · rw [ConstraintScorer.score_placement, if_pos hout]
      exact ⟨fun _ => hout, fun _ => rfl⟩
    · constructor
      · intro hm100
        have := (hclamp s x y width height t hout).1
        rw [hm100] at this
        norm_num at this
      · intro h
        exact absurd h hout

/-- Witness for C4 at a concrete scorer: candidate (10,10,20,20) on a 100×100
canvas, containment bounds (80,80,20,20), fraction 0 ≤ 10%. -/
theorem c4_witness :
    ((ConstraintScorer.mk 100 100 (SpatialGrid.empty 100 100 3)
        (some (Rectangle.mk 80 80 20 20))).check_containment
        (Rectangle.mk 10 10 20 20) "badge").1 = 100 ∧
    (((ConstraintScorer.mk 100 100 (SpatialGrid.empty 100 100 3)
        (some (Rectangle.mk 80 80 20 20))).score_placement 10 10 20 20 "badge").score
      = -100 ↔ (ConstraintScorer.mk 100 100 (SpatialGrid.empty 100 100 3)
        (some (Rectangle.mk 80 80 20 20))).out_of_bounds 10 10 20 20) :=
  ⟨(c4_containment_penalty_and_sentinel.1
      (ConstraintScorer.mk 100 100 (SpatialGrid.empty 100 100 3)
        (some (Rectangle.mk 80 80 20 20))) (Rectangle.mk 80 80 20 20)
      10 10 20 20 "badge" rfl (by with_unfolding_all decide)
      (by with_unfolding_all decide)).1,
   c4_containment_penalty_and_sentinel.2
      (ConstraintScorer.mk 100 100 (SpatialGrid.empty 100 100 3)
        (some (Rectangle.mk 80 80 20 20))) 10 10 20 20 "badge"⟩

/-- C9: with the canvas, candidate rectangle, element type, containment
bounds and the empty-region input held fixed, `score_placement` is
monotonically non-increasing in the collision-overlap fraction. -/
theorem c9_score_antitone_in_collision (cw ch : ℚ) (g1 g2 : SpatialGrid)
    (sb : Option Rectangle) (x y width height : ℚ) (t : String)
    (hmt : (ConstraintScorer.mk cw ch g1 sb).is_in_empty_region
        (Rectangle.mk x y width height) ↔
      (ConstraintScorer.mk cw ch g2 sb).is_in_empty_region
        (Rectangle.mk x y width height))
    (hfrac : (ConstraintScorer.mk cw ch g1 sb).collision_overlap_fraction
        (Rectangle.mk x y width height) ≤
      (ConstraintScorer.mk cw ch g2 sb).collision_overlap_fraction
        (Rectangle.mk x y width height)) :
    ((ConstraintScorer.mk cw ch g2 sb).score_placement x y width height t).score ≤
    ((ConstraintScorer.mk cw ch g1 sb).score_placement x y width height t).score := by
  set s1 := ConstraintScorer.mk cw ch g1 sb
  set s2 := ConstraintScorer.mk cw ch g2 sb
  by_cases hout : s1.out_of_bounds x y width height
  · have hout2 : s2.out_of_bounds x y width height := hout
    rw [ConstraintScorer.score_placement, ConstraintScorer.score_placement,
      if_pos hout, if_pos hout2]
  · have hout2 : ¬ s2.out_of_bounds x y width height := hout
    rw [ConstraintScorer.score_placement, ConstraintScorer.score_placement,
      if_neg hout, if_neg hout2]
    simp only
    apply max_le_max (le_refl 0)
    apply min_le_min (le_refl 100)
    have hcol : (s1.check_collision (Rectangle.mk x y width height)).1 ≤
        (s2.check_collision (Rectangle.mk x y width height)).1 := by
      rw [check_collision_fst, check_collision_fst]
      linarith
    have hh : s1.check_hierarchy y height t = s2.check_hierarchy y height t := rfl
    have hc : s1.check_containment (Rectangle.mk x y width height) t =
        s2.check_containment (Rectangle.mk x y width height) t := rfl
    have ha : s1.is_grid_aligned x y ↔ s2.is_grid_aligned x y := Iff.rfl
    have hm : s1.has_good_margins x y width height ↔
        s2.has_good_margins x y width height := Iff.rfl
    rw [← hh, ← hc]
    have ha2 : (if s2.is_grid_aligned x y then (10:ℚ) else 0) =
        (if s1.is_grid_aligned x y then (10:ℚ) else 0) := rfl
    have hm2 : (if s2.has_good_margins x y width height then (5:ℚ) else 0) =
        (if s1.has_good_margins x y width height then (5:ℚ) else 0) := rfl
    rw [ha2, hm2]
    by_cases he : s1.is_in_empty_region (Rectangle.mk x y width height)
    · rw [if_pos he, if_pos (hmt.mp he)]
      linarith
    · rw [if_neg he, if_neg (fun h2 => he (hmt.mpr h2))]
      linarith

/-- Witness for C9: empty grid versus a grid holding one 50×50 element that
overlaps a fifth of the candidate (0,0,250,50) on a 300×300 canvas. -/
theorem c9_witness :
    ((ConstraintScorer.mk 300 300 (buildGrid 300 300 3 []) none).is_in_empty_region
        (Rectangle.mk 0 0 250 50) ↔
      (ConstraintScorer.mk 300 300
          (buildGrid 300 300 3 [ElemSpec.mk 0 0 50 50 "image" "a" none])
          none).is_in_empty_region (Rectangle.mk 0 0 250 50)) ∧
    ((ConstraintScorer.mk 300 300
        (buildGrid 300 300 3 [ElemSpec.mk 0 0 50 50 "image" "a" none])
        none).score_placement 0 0 250 50 "text").score ≤
      ((ConstraintScorer.mk 300 300 (buildGrid 300 300 3 []) none).score_placement
        0 0 250 50 "text").score :=
  ⟨by with_unfolding_all decide,
   c9_score_antitone_in_collision 300 300 (buildGrid 300 300 3 [])
    (buildGrid 300 300 3 [ElemSpec.mk 0 0 50 50 "image" "a" none]) none
    0 0 250 50 "text" (by with_unfolding_all decide) (by with_unfolding_all decide)⟩

/-! ### `app/core/space_analyzer.py` -/

/-- `FreeSpaceRegion`. -/
structure FreeSpaceRegion where
  rect : Rectangle
  region_type : String
  area : ℚ
  density : ℚ
deriving DecidableEq

/-- `FreeSpaceRegion.can_fit`. -/
def FreeSpaceRegion.can_fit (r : FreeSpaceRegion) (width height margin : ℚ) : Prop :=
  r.rect.width ≥ width + 2 * margin ∧ r.rect.height ≥ height + 2 * margin

instance (r : FreeSpaceRegion) (w h m : ℚ) : Decidable (r.can_fit w h m) := by
  unfold FreeSpaceRegion.can_fit; infer_instance

/-- `SpaceAnalyzer` context. -/
structure SpaceAnalyzer where
  canvas_width : ℚ
  canvas_height : ℚ
  grid : SpatialGrid
  subject_bounds : Option Rectangle

/-- `SpaceAnalyzer.find_product_bounds`: largest image-typed element. -/
def SpaceAnalyzer.find_product_bounds (a : SpaceAnalyzer) : Option Rectangle :=
  ((a.grid.all_elements.foldl
      (fun acc e =>
        if e.element_type = "image" ∧ e.rect.area > acc.2 then (some e.rect, e.rect.area)
        else acc)
      ((none : Option Rectangle), (0:ℚ)))).1

/-- `SpaceAnalyzer._calculate_region_density`: occupied fraction of a region,
capped at 1.0 by the source (`min(1.0, total_overlap / region.area)`). -/
def SpaceAnalyzer.calc_region_density (a : SpaceAnalyzer) (region : Rectangle) : ℚ :=
  let overlapping := a.grid.get_elements_in_region
    region.x region.y region.width region.height
  if overlapping.isEmpty then 0
  else
    let total_overlap := (overlapping.map (fun e => e.rect.overlap_area region)).sum
    min 1 (total_overlap / region.area)

/-- The `add_region` helper of `analyze_free_space`: clamp to the canvas
rectangle, keep only regions strictly larger than 80×80. -/
def SpaceAnalyzer.mk_region (a : SpaceAnalyzer) (canvas : Rectangle)
    (region_type : String) (x y width height : ℚ) : Option FreeSpaceRegion :=
  let x2 := max canvas.x x
  let y2 := max canvas.y y
  let width2 := min width (canvas.x + canvas.width - x2)
  let height2 := min height (canvas.y + canvas.height - y2)
  if width2 > 80 ∧ height2 > 80 then
    let rect := Rectangle.mk x2 y2 width2 height2
    some (FreeSpaceRegion.mk rect region_type rect.area (a.calc_region_density rect))
  else none

/-- Stable descending sort by `area × (1 − density)` (the Python
`regions.sort(key=..., reverse=True)`). -/
def sortRegions (l : List FreeSpaceRegion) : List FreeSpaceRegion :=
  l.insertionSort (fun r s => s.area * (1 - s.density) ≤ r.area * (1 - r.density))

/-- `SpaceAnalyzer.analyze_free_space`. -/
def SpaceAnalyzer.analyze_free_space (a : SpaceAnalyzer) : List FreeSpaceRegion :=
  let canvas := a.subject_bounds.getD (Rectangle.mk 0 0 a.canvas_width a.canvas_height)
  match a.find_product_bounds with
  | none => [FreeSpaceRegion.mk canvas "full" canvas.area 0]
  | some product =>
    let regions :=
      ([a.mk_region canvas "top" canvas.x canvas.y canvas.width
          (product.y - canvas.y - 40),
        a.mk_region canvas "bottom" canvas.x (product.y + product.height + 40)
          canvas.width (canvas.y + canvas.height - (product.y + product.height + 40)),
        a.mk_region canvas "left" canvas.x canvas.y (product.x - canvas.x - 40)
          canvas.height,
        a.mk_region canvas "right" (product.x + product.width + 40) canvas.y
          (canvas.x + canvas.width - (product.x + product.width + 40))
          canvas.height]).reduceOption
    sortRegions regions

/-- `SpaceAnalyzer._calculate_position_in_region`. -/
def SpaceAnalyzer.calc_position_in_region (a : SpaceAnalyzer)
    (region : FreeSpaceRegion) (width height : ℚ) (element_type : String) : ℚ × ℚ :=
  let rect := region.rect
  if element_type = "headline" ∨ element_type = "subheading" then
    let x := rect.x + (rect.width - width) / 2
    let y :=
      if region.region_type = "bottom" then
        max (rect.y + 20) (rect.y + rect.height - height - 30)
      else if region.region_type = "top" then rect.y + 50
      else rect.y + (rect.height - height) / 2
    (x, y)
  else if element_type = "badge" then
    if region.region_type = "bottom" ∨ region.region_type = "top" then
      (rect.x + 50, rect.y + rect.height - height - 50)
    else (rect.x + 50, rect.y + 50)
  else if element_type = "product_image" ∨ element_type = "image" then
    let x := rect.x + (rect.width - width) / 2
    let y := if region.region_type = "top" then rect.y + 40
      else rect.y + (rect.height - height) / 3
    (x, y)
  else
    (rect.x + (rect.width - width) / 2, rect.y + (rect.height - height) / 2)

/-- `SpaceAnalyzer.get_best_position_for_element`: margin-60 filter, margin-20
retry, largest-region fallback (explicit failure for headline/subheading),
bottom-first reordering, then positions in the top 3 regions validated against
the containment canvas. The per-position reasoning string is reduced to the
region type (numeric interpolation elided). -/
def SpaceAnalyzer.get_best_position_for_element (a : SpaceAnalyzer)
    (width height : ℚ) (element_type : String) : List (ℚ × ℚ × String) :=
  let free_regions := a.analyze_free_space
  let v0 := free_regions.filter (fun r => decide (r.can_fit width height 60))
  let v1 := if v0.isEmpty then
      free_regions.filter (fun r => decide (r.can_fit width height 20))
    else v0
  if v1.isEmpty ∧ ¬ free_regions.isEmpty ∧
      (element_type = "headline" ∨ element_type = "subheading") then []
  else
    let v2 := if v1.isEmpty ∧ ¬ free_regions.isEmpty then free_regions.take 1 else v1
    let v3 := if (element_type = "headline" ∨ element_type = "subheading") ∧
        ¬ v2.isEmpty then
        let bottoms := v2.filter (fun r => decide (r.region_type = "bottom"))
        if ¬ bottoms.isEmpty then
          bottoms ++ v2.filter (fun r => decide (¬ r.region_type = "bottom"))
        else v2
      else v2
    let canvas := a.subject_bounds.getD (Rectangle.mk 0 0 a.canvas_width a.canvas_height)
    (v3.take 3).filterMap (fun region =>
      let p := a.calc_position_in_region region width height element_type
      if canvas.x ≤ p.1 ∧ p.1 + width ≤ canvas.x + canvas.width ∧
          canvas.y ≤ p.2 ∧ p.2 + height ≤ canvas.y + canvas.height then
        some (p.1, p.2, region.region_type)
      else none)

lemma calc_region_density_le_one (a : SpaceAnalyzer) (region : Rectangle) :
    a.calc_region_density region ≤ 1 := by
  rw [SpaceAnalyzer.calc_region_density]
  by_cases h : (a.grid.get_elements_in_region region.x region.y region.width
      region.height).isEmpty
  · rw [if_pos h]; norm_num
  · rw [if_neg h]; exact min_le_left 1 _

/-- Helper for C6: every region produced by `analyze_free_space` has density
at most 1 (`0.0` for the no-product full region, `min(1.0, …)` otherwise). -/
lemma analyze_free_space_density_le_one (a : SpaceAnalyzer) :
    ∀ r ∈ a.analyze_free_space, r.density ≤ 1 := by
  intro r hr
  rw [SpaceAnalyzer.analyze_free_space] at hr
  rcases hprod : a.find_product_bounds with - | product
  · rw [hprod] at hr
    simp only [List.mem_singleton] at hr
    rw [hr]
    norm_num
  · rw [hprod] at hr
    simp only at hr
    have hr2 := ((List.perm_insertionSort
      (fun r s : FreeSpaceRegion =>
        s.area * (1 - s.density) ≤ r.area * (1 - r.density)) _).mem_iff).mp hr
    rw [List.reduceOption_mem_iff] at hr2
    simp only [List.mem_cons, List.not_mem_nil, or_false] at hr2
    have hmk : ∀ (canvas : Rectangle) (rt : String) (x y w h : ℚ),
        some r = a.mk_region canvas rt x y w h → r.density ≤ 1 := by
      intro canvas rt x y w h hsome
      rw [SpaceAnalyzer.mk_region] at hsome
      by_cases hcond : min w (canvas.x + canvas.width - max canvas.x x) > 80 ∧
          min h (canvas.y + canvas.height - max canvas.y y) > 80
      · rw [if_pos hcond] at hsome
        have hr3 := (Option.some_inj.mp hsome).symm
        rw [← hr3]
        exact calc_region_density_le_one a _
      · rw [if_neg hcond] at hsome
        exact absurd hsome (Option.some_ne_none r)
    rcases hr2 with hr2 | hr2 | hr2 | hr2
    · exact hmk _ _ _ _ _ _ hr2
    · exact hmk _ _ _ _ _ _ hr2
    · exact hmk _ _ _ _ _ _ hr2
    · exact hmk _ _ _ _ _ _ hr2

/-- C6 (counterexample): no analyzer state whatsoever — overlapping elements
included — can produce a free-space region with density above 1.0, because
`_calculate_region_density` caps its result with `min(1.0, …)`. -/
theorem c6_counterexample :
    ¬ ∃ (a : SpaceAnalyzer) (r : FreeSpaceRegion),
        r ∈ a.analyze_free_space ∧ 1 < r.density := by
  rintro ⟨a, r, hr, hgt⟩
  exact absurd (analyze_free_space_density_le_one a r hr) (not_le.mpr hgt)

/-- C6 (amended): the density of every region returned by
`analyze_free_space` is `min(1, occupied fraction)` — never above 1.0, even
with overlapping existing elements. -/
theorem c6_region_density_capped (a : SpaceAnalyzer) :
    (∀ r ∈ a.analyze_free_space, r.density ≤ 1) ∧
    (∀ region : Rectangle, a.calc_region_density region ≤ 1) :=
  ⟨analyze_free_space_density_le_one a, calc_region_density_le_one a⟩

/-- Analyzer for the C6 witness: two identical overlapping text elements and
no image subject. -/
def c6Analyzer : SpaceAnalyzer :=
  SpaceAnalyzer.mk 300 300
    (buildGrid 300 300 3
      [ElemSpec.mk 0 190 300 110 "text" "t1" none,
       ElemSpec.mk 0 190 300 110 "text" "t2" none])
    none

set_option maxRecDepth 4000 in
/-- Witness for C6: a region returned by `analyze_free_space` on a canvas
with overlapping existing elements has density ≤ 1. -/
theorem c6_witness :
    ∃ r, r ∈ c6Analyzer.analyze_free_space ∧ r.density ≤ 1 := by
  have hlist : c6Analyzer.analyze_free_space =
      [FreeSpaceRegion.mk (Rectangle.mk 0 0 300 300) "full" 90000 0] := by
    with_unfolding_all rfl
  have hmem : FreeSpaceRegion.mk (Rectangle.mk 0 0 300 300) "full" 90000 0 ∈
      c6Analyzer.analyze_free_space := by
    rw [hlist]
    exact List.mem_singleton.mpr rfl
  exact ⟨FreeSpaceRegion.mk (Rectangle.mk 0 0 300 300) "full" 90000 0, hmem,
    (c6_region_density_capped c6Analyzer).1 _ hmem⟩

/-! ### `app/core/placement_generator.py` -/

/-- `CandidateGenerator` context (the `scorer` aliases the same grid in the
facade). -/
structure CandidateGenerator where
  canvas_width : ℚ
  canvas_height : ℚ
  grid : SpatialGrid
  scorer : ConstraintScorer

/-- The ascending values `start, start + step, …` of a Python
`while v <= limit: …; v += step` loop with positive step. -/
def arithSeq (start limit step : ℚ) : List ℚ :=
  if limit < start then []
  else (List.range ((⌊(limit - start) / step⌋).toNat + 1)).map
    (fun k => start + k * step)

/-- `CandidateGenerator._generate_grid_based` (default `grid_step = 80`,
`margin = 50`): banded sampling inside the subject bounds for
headline/subheading, two bottom corners for badge, nothing for other types;
without subject bounds, a uniform x-major grid over the canvas. -/
def CandidateGenerator.gen_grid_based (g : CandidateGenerator)
    (width height : ℚ) (element_type : String) : List PlacementCandidate :=
  let margin : ℚ := 50
  match g.scorer.subject_bounds with
  | some sb =>
    let density := g.grid.get_density_map
    if element_type = "headline" ∨ element_type = "subheading" then
      ((List.range g.grid.grid_size).filterMap (fun j =>
        if density 0 j < 6/10 then
          let x := sb.x + j * g.grid.cell_width + margin
          let y := sb.y + margin
          if x + width ≤ sb.x + sb.width - margin then
            some (PlacementCandidate.mk x y 0 [] "grid-top")
          else none
        else none)) ++
      ((List.range g.grid.grid_size).filterMap (fun j =>
        if density (g.grid.grid_size - 1) j < 4/10 then
          let x := sb.x + j * g.grid.cell_width + margin
          let y := sb.y + sb.height - height - margin
          if x + width ≤ sb.x + sb.width - margin then
            some (PlacementCandidate.mk x y 0 [] "grid-bottom")
          else none
        else none))
    else if element_type = "badge" then
      [PlacementCandidate.mk (sb.x + margin) (sb.y + sb.height - height - margin)
        0 [] "grid-corner",
       PlacementCandidate.mk (sb.x + sb.width - width - margin)
        (sb.y + sb.height - height - margin) 0 [] "grid-corner"]
    else []
  | none =>
    (arithSeq margin (g.canvas_width - margin - width) 80).flatMap (fun x =>
      (arithSeq margin (g.canvas_height - margin - height) 80).map (fun y =>
        PlacementCandidate.mk x y 0 [] "grid"))

/-- `CandidateGenerator._generate_anchor_based` (gap 20). -/
def CandidateGenerator.gen_anchor_based (g : CandidateGenerator)
    (width height : ℚ) (element_type : String) : List PlacementCandidate :=
  let gap : ℚ := 20
  g.grid.all_elements.flatMap (fun elem =>
    if element_type = "subheading" ∧
        (elem.element_type = "headline" ∨ elem.element_type = "text") then
      [PlacementCandidate.mk elem.rect.x (elem.rect.y + elem.rect.height + gap)
        0 [] "anchor-below-headline",
       PlacementCandidate.mk (elem.rect.center_x - width / 2)
        (elem.rect.y + elem.rect.height + gap) 0 [] "anchor-centered"]
    else if element_type = "badge" then
      if ¬ elem.element_type = "badge" then
        [PlacementCandidate.mk (elem.rect.x - width - gap) elem.rect.y 0 [] "anchor-badge",
         PlacementCandidate.mk (elem.rect.x2 + gap) elem.rect.y 0 [] "anchor-badge",
         PlacementCandidate.mk elem.rect.x (elem.rect.y - height - gap) 0 [] "anchor-badge",
         PlacementCandidate.mk elem.rect.x (elem.rect.y2 + gap) 0 [] "anchor-badge"]
      else []
    else
      [PlacementCandidate.mk elem.rect.x (elem.rect.y2 + gap) 0 [] "anchor-below",
       PlacementCandidate.mk elem.rect.x (elem.rect.y - height - gap) 0 [] "anchor-above",
       PlacementCandidate.mk (elem.rect.x2 + gap) elem.rect.y 0 [] "anchor-right",
       PlacementCandidate.mk (elem.rect.x - width - gap) elem.rect.y 0 [] "anchor-left"])

/-- The no-subject-bounds tail of `_generate_type_specific`. -/
def CandidateGenerator.gen_type_specific_fallback (g : CandidateGenerator)
    (width height : ℚ) (element_type : String) : List PlacementCandidate :=
  let margin : ℚ := 60
  if element_type = "headline" then
    [PlacementCandidate.mk ((g.canvas_width - width) / 2)
      (g.canvas_height - height - margin) 0 [] "strategic-headline-bottom"]
  else if element_type = "subheading" then
    [PlacementCandidate.mk ((g.canvas_width - width) / 2) (g.canvas_height * 15/100)
      0 [] "strategic-subheading",
     PlacementCandidate.mk ((g.canvas_width - width) / 2) (g.canvas_height * 20/100)
      0 [] "strategic-subheading",
     PlacementCandidate.mk ((g.canvas_width - width) / 2) (g.canvas_height * 25/100)
      0 [] "strategic-subheading"]
  else if element_type = "badge" then
    [PlacementCandidate.mk margin (g.canvas_height - height - margin)
      0 [] "strategic-badge-bottom-left",
     PlacementCandidate.mk (g.canvas_width - width - margin)
      (g.canvas_height - height - margin) 0 [] "strategic-badge-bottom-right",
     PlacementCandidate.mk margin margin 0 [] "strategic-badge-top-left",
     PlacementCandidate.mk (g.canvas_width - width - margin) margin
      0 [] "strategic-badge-top-right"]
  else if element_type = "logo" then
    [PlacementCandidate.mk (g.canvas_width - width - margin)
      (g.canvas_height - height - margin) 0 [] "strategic-logo"]
  else []

/-- `CandidateGenerator._generate_type_specific` (margin 60; the source also
computes an unused `product_elem` local, elided here). -/
def CandidateGenerator.gen_type_specific (g : CandidateGenerator)
    (width height : ℚ) (element_type : String) : List PlacementCandidate :=
  let margin : ℚ := 60
  match g.scorer.subject_bounds with
  | some sb =>
    if ¬ g.grid.all_elements.isEmpty then
      if element_type = "headline" then
        let y_bottom := sb.y + sb.height - height - margin
        [PlacementCandidate.mk (sb.x + (sb.width - width) / 2) y_bottom
          0 [] "strategic-headline-bottom-center",
         PlacementCandidate.mk (sb.x + margin) y_bottom 0 [] "strategic-headline-bottom-left",
         PlacementCandidate.mk (sb.x + (sb.width - width) / 2) (sb.y + margin)
          0 [] "strategic-headline-top-center"]
      else if element_type = "subheading" then
        [PlacementCandidate.mk (sb.x + (sb.width - width) / 2)
          (sb.y + sb.height - height - margin - 100) 0 []
          "strategic-subheading-mid-bottom-center"]
      else if element_type = "badge" then
        [PlacementCandidate.mk (sb.x + margin) (sb.y + sb.height - height - margin)
          0 [] "strategic-badge-bottom-left"]
      else []
    else g.gen_type_specific_fallback width height element_type
  | none => g.gen_type_specific_fallback width height element_type

/-- `CandidateGenerator._deduplicate_candidates` (tolerance 10): first-seen
candidate wins; closeness is Euclidean distance below tolerance, expressed on
squared distances. -/
def dedup_candidates (candidates : List PlacementCandidate) : List PlacementCandidate :=
  candidates.foldl
    (fun unique c =>
      if unique.any (fun e => decide ((c.x - e.x) ^ 2 + (c.y - e.y) ^ 2 < 10 ^ 2)) then
        unique
      else unique ++ [c])
    []

instance : DecidableRel
    (fun a b : PlacementCandidate => b.score ≤ a.score) :=
  fun a b => inferInstanceAs (Decidable (b.score ≤ a.score))

/-- Stable descending sort by score: the Python
`sort(reverse=True, key=lambda c: c.score)`. -/
def sortCandidates (l : List PlacementCandidate) : List PlacementCandidate :=
  l.insertionSort (fun a b => b.score ≤ a.score)

/-- `CandidateGenerator.generate_candidates`: space-analysis positions, then
grid-based and anchor-based candidates, deduplicated, scored (generation
method preserved), sorted descending by score and truncated. -/
def CandidateGenerator.generate_candidates (g : CandidateGenerator)
    (width height : ℚ) (element_type : String) (max_candidates : ℕ) :
    List PlacementCandidate :=
  let analyzer := SpaceAnalyzer.mk g.canvas_width g.canvas_height g.grid
    g.scorer.subject_bounds
  let smart_positions := analyzer.get_best_position_for_element width height element_type
  let c1 := smart_positions.map (fun p =>
    PlacementCandidate.mk p.1 p.2.1 0 [p.2.2] "space-analysis")
  let c2 := g.gen_grid_based width height element_type
  let c3 := g.gen_anchor_based width height element_type
  let unique := dedup_candidates (c1 ++ c2 ++ c3)
  let scored := unique.map (fun c =>
    { g.scorer.score_placement c.x c.y width height element_type with
        method := c.method })
  (sortCandidates scored).take max_candidates

/-! ### `app/routers/placement.py` — the placement facade -/

/-- `CanvasElement` of the request model (width/height validated > 0). -/
structure CanvasElement where
  id : String
  type : String
  x : ℚ
  y : ℚ
  width : ℚ
  height : ℚ
  text : Option String
deriving DecidableEq

/-- `SubjectBounds` of the request model. -/
structure SubjectBounds where
  x : ℚ
  y : ℚ
  width : ℚ
  height : ℚ
deriving DecidableEq

/-- `ElementToPlace` of the request model. -/
structure ElementToPlace where
  type : String
  width : ℚ
  height : ℚ
deriving DecidableEq

/-- `PlacementRequest` (the optional `image_base64` payload is unused by the
placement algorithm and elided). -/
structure PlacementRequest where
  canvas_w : ℚ
  canvas_h : ℚ
  elements : List CanvasElement
  element_to_place : ElementToPlace
  subject_bounds : Option SubjectBounds

/-- `PlacementResponse` (`x`/`y` are `int(...)` truncations). -/
structure PlacementResponse where
  x : ℤ
  y : ℤ
  confidence : ℚ
  reasoning : String
deriving DecidableEq

/-- Step-1 clamping of an existing element's coordinates:
`max(0, min(v, canvas_dim - elem_dim))`. -/
def clamp_coord (v elem_dim canvas_dim : ℚ) : ℚ :=
  max 0 (min v (canvas_dim - elem_dim))

/-- Step-2 clamping of `subject_bounds`: coordinates floored at 0, then the
width/height shrunk to fit the canvas from the clamped corner. -/
def clamp_subject_bounds (cw ch : ℚ) (sb : SubjectBounds) : Rectangle :=
  let sb_x := max 0 sb.x
  let sb_y := max 0 sb.y
  Rectangle.mk sb_x sb_y (min sb.width (cw - sb_x)) (min sb.height (ch - sb_y))

/-- Steps 1–3 of `smart_placement`: build the 3×3 grid from the clamped
elements, the scorer over the clamped subject bounds, and generate up to 100
candidates for the element to place. -/
def smart_candidates (req : PlacementRequest) : List PlacementCandidate :=
  let grid := req.elements.foldl
    (fun g e => g.add_element (clamp_coord e.x e.width req.canvas_w)
      (clamp_coord e.y e.height req.canvas_h) e.width e.height e.type e.id e.text)
    (SpatialGrid.empty req.canvas_w req.canvas_h 3)
  let subject_rect := req.subject_bounds.map (clamp_subject_bounds req.canvas_w req.canvas_h)
  let scorer := ConstraintScorer.mk req.canvas_w req.canvas_h grid subject_rect
  let gen := CandidateGenerator.mk req.canvas_w req.canvas_h grid scorer
  gen.generate_candidates req.element_to_place.width req.element_to_place.height
    req.element_to_place.type 100

/-- The fallback response of steps 4 and the exception handler. -/
def fallback_response : PlacementResponse :=
  PlacementResponse.mk 40 40 (3/10) "No valid placements found - using safe default"

/-- Steps 4–5 of `smart_placement`: fallback on an empty candidate list, else
the top candidate with `confidence = score / 100` and a reasoning summary
built from the method and the top reasoning entries (score interpolation
elided). -/
def smart_placement (req : PlacementRequest) : PlacementResponse :=
  match smart_candidates req with
  | [] => fallback_response
  | best :: _ =>
    PlacementResponse.mk (pyInt best.x) (pyInt best.y) (best.score / 100)
      (best.method ++ " placement. " ++ String.intercalate " " (best.reasoning.take 3))

/-- C7 (counterexample): canvas 100×100 and `subject_bounds` (90, 0, 50, 50):
the code keeps `x = 90` (only flooring at 0 and shrinking the width to 10),
while the claim requires `x ≤ canvas_width − width = 50`. -/
theorem c7_counterexample :
    (clamp_subject_bounds 100 100 (SubjectBounds.mk 90 0 50 50)).x = 90 ∧
    ¬ (clamp_subject_bounds 100 100 (SubjectBounds.mk 90 0 50 50)).x ≤ 100 - 50 := by
  constructor
  · rw [clamp_subject_bounds]
    norm_num
  · rw [clamp_subject_bounds]
    norm_num

/-- C7 (amended): existing elements whose dimensions fit the canvas get their
coordinates clamped into `[0, canvas_dim − element_dim]`; `subject_bounds`
instead gets its coordinates floored at 0 and its width/height shrunk, which
guarantees `0 ≤ x` and `x + clamped_width ≤ canvas_width` (and likewise for
`y`), but not `x ≤ canvas_width − original_width`. -/
theorem c7_clamping_before_grid (cw ch : ℚ) (e : CanvasElement) (sb : SubjectBounds)
    (hew : e.width ≤ cw) (heh : e.height ≤ ch) :
    (0 ≤ clamp_coord e.x e.width cw ∧ clamp_coord e.x e.width cw ≤ cw - e.width ∧
     0 ≤ clamp_coord e.y e.height ch ∧ clamp_coord e.y e.height ch ≤ ch - e.height) ∧
    (0 ≤ (clamp_subject_bounds cw ch sb).x ∧
     (clamp_subject_bounds cw ch sb).x + (clamp_subject_bounds cw ch sb).width ≤ cw ∧
     0 ≤ (clamp_subject_bounds cw ch sb).y ∧
     (clamp_subject_bounds cw ch sb).y + (clamp_subject_bounds cw ch sb).height ≤ ch) := by
  constructor
  · refine ⟨le_max_left 0 _, ?_, le_max_left 0 _, ?_⟩
    · exact max_le (by linarith) (min_le_right _ _)
    · exact max_le (by linarith) (min_le_right _ _)
  · rw [clamp_subject_bounds]
    refine ⟨le_max_left 0 _, ?_, le_max_left 0 _, ?_⟩
    · have := min_le_right sb.width (cw - max 0 sb.x)
      simp only
      linarith
    · have := min_le_right sb.height (ch - max 0 sb.y)
      simp only
      linarith

/-- Witness for C7: an element dragged to (−30, −20) on a 100×100 canvas and
an out-of-range subject-bounds rectangle. -/
theorem c7_witness :
    ((50:ℚ) ≤ 100 ∧ (40:ℚ) ≤ 100) ∧
    ((0 ≤ clamp_coord (-30) 50 100 ∧ clamp_coord (-30) 50 100 ≤ 100 - 50 ∧
      0 ≤ clamp_coord (-20) 40 100 ∧ clamp_coord (-20) 40 100 ≤ 100 - 40) ∧
     (0 ≤ (clamp_subject_bounds 100 100 (SubjectBounds.mk 90 0 50 50)).x ∧
      (clamp_subject_bounds 100 100 (SubjectBounds.mk 90 0 50 50)).x +
        (clamp_subject_bounds 100 100 (SubjectBounds.mk 90 0 50 50)).width ≤ 100 ∧
      0 ≤ (clamp_subject_bounds 100 100 (SubjectBounds.mk 90 0 50 50)).y ∧
      (clamp_subject_bounds 100 100 (SubjectBounds.mk 90 0 50 50)).y +
        (clamp_subject_bounds 100 100 (SubjectBounds.mk 90 0 50 50)).height ≤ 100)) :=
  ⟨⟨by norm_num, by norm_num⟩,
   c7_clamping_before_grid 100 100 (CanvasElement.mk "a" "text" (-30) (-20) 50 40 none)
     (SubjectBounds.mk 90 0 50 50) (by norm_num) (by norm_num)⟩

/-- The method tags of the three strategies actually wired into
`generate_candidates`. -/
def allowedMethods : List String :=
  ["space-analysis", "grid-top", "grid-bottom", "grid-corner", "grid",
   "anchor-below-headline", "anchor-centered", "anchor-badge",
   "anchor-below", "anchor-above", "anchor-right", "anchor-left"]

lemma dedup_candidates_subset (l : List PlacementCandidate) :
    ∀ c ∈ dedup_candidates l, c ∈ l := by
  rw [dedup_candidates]
  suffices h : ∀ (l acc : List PlacementCandidate),
      ∀ c ∈ l.foldl (fun unique c =>
        if unique.any (fun e => decide ((c.x - e.x) ^ 2 + (c.y - e.y) ^ 2 < 10 ^ 2)) then
          unique
        else unique ++ [c]) acc, c ∈ acc ∨ c ∈ l by
    intro c hc
    rcases h l [] c hc with habs | hmem
    · exact absurd habs (List.not_mem_nil c)
    · exact hmem
  intro l
  induction l with
  | nil => intro acc c hc; exact Or.inl hc
  | cons a l ih =>
    intro acc c hc
    rw [List.foldl_cons] at hc
    rcases ih _ c hc with hstep | hl
    · by_cases hdup : acc.any (fun e =>
          decide ((a.x - e.x) ^ 2 + (a.y - e.y) ^ 2 < 10 ^ 2))
      · rw [if_pos hdup] at hstep
        exact Or.inl hstep
      · rw [if_neg hdup] at hstep
        rcases List.mem_append.mp hstep with hacc | ha
        · exact Or.inl hacc
        · exact Or.inr (List.mem_cons.mpr (Or.inl (List.mem_singleton.mp ha)))
    · exact Or.inr (List.mem_cons.mpr (Or.inr hl))

lemma gen_grid_based_methods (g : CandidateGenerator) (w h : ℚ) (t : String) :
    ∀ c ∈ g.gen_grid_based w h t, c.method ∈ allowedMethods := by
  intro c hc
  rw [CandidateGenerator.gen_grid_based] at hc
  rcases hsb : g.scorer.subject_bounds with - | sb
  · rw [hsb] at hc
    simp only [List.mem_flatMap, List.mem_map] at hc
    obtain ⟨x, -, y, -, rfl⟩ := hc
    simp [allowedMethods]
  · rw [hsb] at hc
    simp only at hc
    split_ifs at hc with h1 h2
    · rcases List.mem_append.mp hc with hfm | hfm
      all_goals {
        rw [List.mem_filterMap] at hfm
        obtain ⟨j, -, hj⟩ := hfm
        split_ifs at hj
        all_goals first
          | (exact absurd hj (Option.noConfusion))
          | (rw [Option.some_inj] at hj
             rw [← hj]
             simp [allowedMethods]) }
    · simp only [List.mem_cons, List.not_mem_nil, or_false] at hc
      rcases hc with rfl | rfl
      all_goals simp [allowedMethods]
    · exact absurd hc (List.not_mem_nil c)

lemma gen_anchor_based_methods (g : CandidateGenerator) (w h : ℚ) (t : String) :
    ∀ c ∈ g.gen_anchor_based w h t, c.method ∈ allowedMethods := by
  intro c hc
  rw [CandidateGenerator.gen_anchor_based] at hc
  simp only [List.mem_flatMap] at hc
  obtain ⟨elem, -, hc⟩ := hc
  split_ifs at hc
  all_goals
    simp only [List.mem_cons, List.not_mem_nil, or_false] at hc
  · rcases hc with rfl | rfl
    all_goals simp [allowedMethods]
  · rcases hc with rfl | rfl | rfl | rfl
    all_goals simp [allowedMethods]
  · rcases hc with rfl | rfl | rfl | rfl
    all_goals simp [allowedMethods]

/-- Every candidate returned by `generate_candidates` is a `score_placement`
result at some position, re-tagged with a method of the three wired
strategies. -/
lemma mem_generate_candidates {g : CandidateGenerator} {w h : ℚ} {t : String}
    {mc : ℕ} {c : PlacementCandidate} (hc : c ∈ g.generate_candidates w h t mc) :
    ∃ x0 y0 m, m ∈ allowedMethods ∧
      c = { g.scorer.score_placement x0 y0 w h t with method := m } := by
  simp only [CandidateGenerator.generate_candidates] at hc
  have hc2 := List.take_subset _ _ hc
  rw [sortCandidates] at hc2
  have hc3 := (List.perm_insertionSort
    (fun a b : PlacementCandidate => b.score ≤ a.score) _).mem_iff.mp hc2
  rw [List.mem_map] at hc3
  obtain ⟨c0, hc0, rfl⟩ := hc3
  have hc0pool := dedup_candidates_subset _ _ hc0
  refine ⟨c0.x, c0.y, c0.method, ?_, rfl⟩
  rcases List.mem_append.mp hc0pool with h12 | h3
  · rcases List.mem_append.mp h12 with h1 | h2
    · rw [List.mem_map] at h1
      obtain ⟨p, -, rfl⟩ := h1
      simp [allowedMethods]
    · exact gen_grid_based_methods _ _ _ _ _ h2
  · exact gen_anchor_based_methods _ _ _ _ _ h3

/-- The method tags of `_generate_type_specific`. -/
def strategicMethods : List String :=
  ["strategic-headline-bottom-center", "strategic-headline-bottom-left",
   "strategic-headline-top-center", "strategic-subheading-mid-bottom-center",
   "strategic-badge-bottom-left", "strategic-headline-bottom",
   "strategic-subheading", "strategic-badge-bottom-right",
   "strategic-badge-top-left", "strategic-badge-top-right", "strategic-logo"]

lemma gen_type_specific_fallback_methods (g : CandidateGenerator) (w h : ℚ)
    (t : String) : ∀ d ∈ g.gen_type_specific_fallback w h t,
      d.method ∈ strategicMethods := by
  intro d hd
  rw [CandidateGenerator.gen_type_specific_fallback] at hd
  split_ifs at hd
  all_goals
    simp only [List.mem_cons, List.not_mem_nil, or_false] at hd
  · rcases hd with rfl
    simp [strategicMethods]
  · rcases hd with rfl | rfl | rfl
    all_goals simp [strategicMethods]
  · rcases hd with rfl | rfl | rfl | rfl
    all_goals simp [strategicMethods]
  · rcases hd with rfl
    simp [strategicMethods]

lemma gen_type_specific_methods (g : CandidateGenerator) (w h : ℚ) (t : String) :
    ∀ d ∈ g.gen_type_specific w h t, d.method ∈ strategicMethods := by
  intro d hd
  rw [CandidateGenerator.gen_type_specific] at hd
  rcases hsb : g.scorer.subject_bounds with - | sb
  · rw [hsb] at hd
    exact gen_type_specific_fallback_methods g w h t d hd
  · rw [hsb] at hd
    simp only at hd
    split_ifs at hd
    case _ => exact gen_type_specific_fallback_methods g w h t d hd
    all_goals
      simp only [List.mem_cons, List.not_mem_nil, or_false] at hd
    · rcases hd with rfl | rfl | rfl
      all_goals simp [strategicMethods]
    · rcases hd with rfl
      simp [strategicMethods]
    · rcases hd with rfl
      simp [strategicMethods]

/-- C5 (amended): the type-specific strategy is defined in the source but not
wired into `generate_candidates` at all: every candidate in the final ranked
list carries a method tag of the space-analysis, grid-sampling or anchor-based
strategies, never one of the `strategic-*` tags of the type-specific
strategy. -/
theorem c5_type_specific_not_wired (g : CandidateGenerator) (w h : ℚ)
    (t : String) (mc : ℕ) :
    ∀ c ∈ g.generate_candidates w h t mc,
      c.method ∈ allowedMethods ∧
      ∀ d ∈ g.gen_type_specific w h t, c.method ≠ d.method := by
  intro c hc
  obtain ⟨x0, y0, m, hm, rfl⟩ := mem_generate_candidates hc
  refine ⟨hm, fun d hd heq => ?_⟩
  have hd2 := gen_type_specific_methods g w h t d hd
  have hdisj : ∀ a ∈ allowedMethods, ∀ b ∈ strategicMethods, a ≠ b := by decide
  exact hdisj _ hm _ hd2 (by rw [← heq])

/-- Generator for the C5 counterexample: 300×300 canvas, no elements, no
subject bounds. -/
def c5Gen : CandidateGenerator :=
  CandidateGenerator.mk 300 300 (SpatialGrid.empty 300 300 3)
    (ConstraintScorer.mk 300 300 (SpatialGrid.empty 300 300 3) none)

lemma c5_gen_eval : c5Gen.generate_candidates 100 100 "logo" 100 =
    [PlacementCandidate.mk 100 100 100
      ["No collisions", "Empty region", "Good margins"] "space-analysis",
     PlacementCandidate.mk 50 50 100
      ["No collisions", "Empty region", "Good margins"] "grid",
     PlacementCandidate.mk 50 130 100
      ["No collisions", "Empty region", "Good margins"] "grid",
     PlacementCandidate.mk 130 50 100
      ["No collisions", "Empty region", "Good margins"] "grid",
     PlacementCandidate.mk 130 130 100
      ["No collisions", "Empty region", "Good margins"] "grid"] := by
  with_unfolding_all rfl

/-- C5 (counterexample): placing a 100×100 logo on an empty 300×300 canvas,
the type-specific strategy proposes (140, 140), but no candidate at that
position appears in the ranked list of `generate_candidates` — the strategy
is not part of the pool. -/
theorem c5_counterexample :
    ∃ d ∈ c5Gen.gen_type_specific 100 100 "logo",
      ∀ c ∈ c5Gen.generate_candidates 100 100 "logo" 100,
        ¬ (c.x = d.x ∧ c.y = d.y) := by
  have hts : c5Gen.gen_type_specific 100 100 "logo" =
      [PlacementCandidate.mk 140 140 0 [] "strategic-logo"] := by
    with_unfolding_all rfl
  have hgen := c5_gen_eval
  refine ⟨PlacementCandidate.mk 140 140 0 [] "strategic-logo", ?_, ?_⟩
  · rw [hts]
    exact List.mem_singleton.mpr rfl
  · intro c hc
    rw [hgen] at hc
    simp only [List.mem_cons, List.not_mem_nil, or_false] at hc
    rcases hc with rfl | rfl | rfl | rfl | rfl <;>
      (rintro ⟨hx, -⟩; norm_num at hx)

/-- Witness for C5 at the concrete generator: the top-ranked candidate has an
allowed method tag distinct from every type-specific tag. -/
theorem c5_witness :
    (PlacementCandidate.mk 100 100 100
        ["No collisions", "Empty region", "Good margins"] "space-analysis").method
      ∈ allowedMethods ∧
    ∀ d ∈ c5Gen.gen_type_specific 100 100 "logo",
      (PlacementCandidate.mk 100 100 100
        ["No collisions", "Empty region", "Good margins"] "space-analysis").method
        ≠ d.method :=
  c5_type_specific_not_wired c5Gen 100 100 "logo" 100
    (PlacementCandidate.mk 100 100 100
      ["No collisions", "Empty region", "Good margins"] "space-analysis")
    (by rw [c5_gen_eval]; exact List.mem_cons_self _ _)

lemma score_placement_score_bounds (s : ConstraintScorer) (x y width height : ℚ)
    (t : String) :
    -100 ≤ (s.score_placement x y width height t).score ∧
    (s.score_placement x y width height t).score ≤ 100 := by
  rw [ConstraintScorer.score_placement]
  by_cases hout : s.out_of_bounds x y width height
  · rw [if_pos hout]
    exact ⟨le_refl _, by norm_num⟩
  · rw [if_neg hout]
    constructor
    · exact le_trans (by norm_num) (le_max_left 0 _)
    · exact max_le (by norm_num) (min_le_left _ _)

lemma score_placement_x (s : ConstraintScorer) (x y width height : ℚ) (t : String) :
    (s.score_placement x y width height t).x = x := by
  rw [ConstraintScorer.score_placement]
  split <;> rfl

lemma score_placement_y (s : ConstraintScorer) (x y width height : ℚ) (t : String) :
    (s.score_placement x y width height t).y = y := by
  rw [ConstraintScorer.score_placement]
  split <;> rfl

/-- A nonnegatively-scored `score_placement` call was made at an in-canvas
position. -/
lemma score_placement_in_bounds (s : ConstraintScorer) (x y width height : ℚ)
    (t : String) (h : 0 ≤ (s.score_placement x y width height t).score) :
    0 ≤ x ∧ 0 ≤ y ∧ x + width ≤ s.canvas_width ∧ y + height ≤ s.canvas_height := by
  by_cases hout : s.out_of_bounds x y width height
  · rw [ConstraintScorer.score_placement, if_pos hout] at h
    norm_num at h
  · have hb1 : ¬ x < 0 := fun hx => hout (Or.inl hx)
    have hb2 : ¬ y < 0 := fun hy => hout (Or.inr (Or.inl hy))
    have hb3 : ¬ x + width > s.canvas_width := fun hw => hout (Or.inr (Or.inr (Or.inl hw)))
    have hb4 : ¬ y + height > s.canvas_height := fun hh => hout (Or.inr (Or.inr (Or.inr hh)))
    exact ⟨not_lt.mp hb1, not_lt.mp hb2, not_lt.mp hb3, not_lt.mp hb4⟩

/-- Projection form of `mem_generate_candidates`. -/
lemma mem_generate_candidates_proj {g : CandidateGenerator} {w h : ℚ} {t : String}
    {mc : ℕ} {c : PlacementCandidate} (hc : c ∈ g.generate_candidates w h t mc) :
    ∃ x0 y0, c.x = x0 ∧ c.y = y0 ∧
      c.score = (g.scorer.score_placement x0 y0 w h t).score := by
  obtain ⟨x0, y0, m, -, heq⟩ := mem_generate_candidates hc
  refine ⟨x0, y0, ?_, ?_, ?_⟩
  · rw [heq]
    exact score_placement_x _ _ _ _ _ _
  · rw [heq]
    exact score_placement_y _ _ _ _ _ _
  · rw [heq]

/-- C1 (amended): whenever the response is not the fallback and its
confidence is nonnegative (the chosen candidate is not the −100 out-of-bounds
sentinel), the returned position fits the canvas for the dimensions of
`element_to_place`. -/
theorem c1_nonfallback_nonneg_in_bounds (req : PlacementRequest)
    (hnf : ¬ ((smart_placement req).x = 40 ∧ (smart_placement req).y = 40 ∧
      (smart_placement req).confidence = 3/10))
    (hconf : 0 ≤ (smart_placement req).confidence) :
    0 ≤ (smart_placement req).x ∧ 0 ≤ (smart_placement req).y ∧
    ((smart_placement req).x : ℚ) + req.element_to_place.width ≤ req.canvas_w ∧
    ((smart_placement req).y : ℚ) + req.element_to_place.height ≤ req.canvas_h := by
  rcases hcands : smart_candidates req with - | ⟨best, rest⟩
  · have hsp : smart_placement req = fallback_response := by
      rw [smart_placement, hcands]
    rw [hsp] at hnf
    exact absurd ⟨rfl, rfl, rfl⟩ hnf
  · have hsp : smart_placement req = PlacementResponse.mk (pyInt best.x)
        (pyInt best.y) (best.score / 100)
        (best.method ++ " placement. " ++
          String.intercalate " " (best.reasoning.take 3)) := by
      rw [smart_placement, hcands]
    rw [hsp] at hconf ⊢
    have hbm : best ∈ smart_candidates req := by
      rw [hcands]
      exact List.mem_cons_self best rest
    simp only [smart_candidates] at hbm
    obtain ⟨x0, y0, hcx, hcy, hcs⟩ := mem_generate_candidates_proj hbm
    have hs0 : 0 ≤ best.score := by
      have h100 : (0:ℚ) < 100 := by norm_num
      have := (le_div_iff₀ h100).mp hconf
      simpa using this
    rw [hcs] at hs0
    obtain ⟨h0x, h0y, hxw, hyh⟩ := score_placement_in_bounds _ _ _ _ _ _ hs0
    have hxw2 : x0 + req.element_to_place.width ≤ req.canvas_w := hxw
    have hyh2 : y0 + req.element_to_place.height ≤ req.canvas_h := hyh
    have hpx : pyInt best.x = ⌊x0⌋ := by rw [hcx, pyInt_of_nonneg h0x]
    have hpy : pyInt best.y = ⌊y0⌋ := by rw [hcy, pyInt_of_nonneg h0y]
    refine ⟨?_, ?_, ?_, ?_⟩
    · show (0:ℤ) ≤ pyInt best.x
      rw [hpx]
      exact Int.floor_nonneg.mpr h0x
    · show (0:ℤ) ≤ pyInt best.y
      rw [hpy]
      exact Int.floor_nonneg.mpr h0y
    · show ((pyInt best.x : ℚ)) + req.element_to_place.width ≤ req.canvas_w
      rw [hpx]
      have := Int.floor_le x0
      linarith
    · show ((pyInt best.y : ℚ)) + req.element_to_place.height ≤ req.canvas_h
      rw [hpy]
      have := Int.floor_le y0
      linarith

lemma score_placement_nonneg_of_in_bounds (s : ConstraintScorer)
    (x y width height : ℚ) (t : String) (hout : ¬ s.out_of_bounds x y width height) :
    0 ≤ (s.score_placement x y width height t).score := by
  rw [ConstraintScorer.score_placement, if_neg hout]
  exact le_max_left 0 _

/-- The −100 sentinel characterization: `score_placement` returns score −100
exactly for out-of-canvas candidates. -/
lemma score_placement_sentinel_iff (s : ConstraintScorer) (x y width height : ℚ)
    (t : String) :
    (s.score_placement x y width height t).score = -100 ↔
      s.out_of_bounds x y width height := by
  by_cases hout : s.out_of_bounds x y width height
  · rw [ConstraintScorer.score_placement, if_pos hout]
    exact ⟨fun _ => hout, fun _ => rfl⟩
  · constructor
    · intro hm
      have h0 := score_placement_nonneg_of_in_bounds s x y width height t hout
      rw [hm] at h0
      norm_num at h0
    · intro h
      exact absurd h hout

/-- C3 (amended): the confidence always lies in [−1, 1]; it is 0.3 in the
fallback case; in the non-fallback case it equals the best candidate score
divided by 100, which lies in {−1} ∪ [0, 1] and is −1 exactly when the best
candidate is the −100 out-of-bounds sentinel (its rectangle exceeds the
canvas bounds for the dimensions of the element to place). -/
theorem c3_confidence_range (req : PlacementRequest) :
    (-1 ≤ (smart_placement req).confidence ∧ (smart_placement req).confidence ≤ 1) ∧
    (smart_candidates req = [] → (smart_placement req).confidence = 3/10) ∧
    (∀ best rest, smart_candidates req = best :: rest →
      (smart_placement req).confidence = best.score / 100 ∧
      ((smart_placement req).confidence = -1 ∨
        (0 ≤ (smart_placement req).confidence ∧ (smart_placement req).confidence ≤ 1)) ∧
      ((smart_placement req).confidence = -1 ↔ best.score = -100) ∧
      ((smart_placement req).confidence = -1 ↔
        (best.x < 0 ∨ best.y < 0 ∨
         best.x + req.element_to_place.width > req.canvas_w ∨
         best.y + req.element_to_place.height > req.canvas_h))) := by
  rcases hcands : smart_candidates req with - | ⟨best, rest⟩
  · have hsp : smart_placement req = fallback_response := by
      rw [smart_placement, hcands]
    rw [hsp]
    refine ⟨⟨by norm_num [fallback_response], by norm_num [fallback_response]⟩,
      fun hnil => rfl, fun b r hbr => ?_⟩
    exact absurd hbr.symm (List.cons_ne_nil b r)
  · have hsp : (smart_placement req).confidence = best.score / 100 := by
      rw [smart_placement, hcands]
    have hbm : best ∈ smart_candidates req := by
      rw [hcands]
      exact List.mem_cons_self best rest
    simp only [smart_candidates] at hbm
    obtain ⟨x0, y0, hbx, hby, hcs⟩ := mem_generate_candidates_proj hbm
    have h100 : (0:ℚ) < 100 := by norm_num
    have hb2 : -100 ≤ best.score ∧ best.score ≤ 100 := by
      rw [hcs]
      exact score_placement_score_bounds _ _ _ _ _ _
    -- confidence = −1 exactly when the best score is the −100 sentinel
    have hiffscore : (smart_placement req).confidence = -1 ↔ best.score = -100 := by
      rw [hsp, div_eq_iff (by norm_num : (100:ℚ) ≠ 0)]
      norm_num
    -- the −100 sentinel occurs exactly for positions exceeding canvas bounds
    have hsent := score_placement_sentinel_iff (ConstraintScorer.mk req.canvas_w
      req.canvas_h (req.elements.foldl
        (fun g e => g.add_element (clamp_coord e.x e.width req.canvas_w)
          (clamp_coord e.y e.height req.canvas_h) e.width e.height e.type e.id e.text)
        (SpatialGrid.empty req.canvas_w req.canvas_h 3))
      (req.subject_bounds.map (clamp_subject_bounds req.canvas_w req.canvas_h)))
      x0 y0 req.element_to_place.width req.element_to_place.height
      req.element_to_place.type
    have hscoreoob : best.score = -100 ↔
        (best.x < 0 ∨ best.y < 0 ∨
         best.x + req.element_to_place.width > req.canvas_w ∨
         best.y + req.element_to_place.height > req.canvas_h) := by
      rw [hcs, hbx, hby]
      exact hsent
    -- confidence lies in {−1} ∪ [0, 1]
    have hmem : (smart_placement req).confidence = -1 ∨
        (0 ≤ (smart_placement req).confidence ∧
         (smart_placement req).confidence ≤ 1) := by
      by_cases hm : best.score = -100
      · exact Or.inl (hiffscore.mpr hm)
      · right
        have hnoob : ¬ (best.x < 0 ∨ best.y < 0 ∨
            best.x + req.element_to_place.width > req.canvas_w ∨
            best.y + req.element_to_place.height > req.canvas_h) :=
          fun hoob => hm (hscoreoob.mpr hoob)
      -- in-bounds candidates have clamped nonnegative scores
        have hge0 : 0 ≤ best.score := by
          rw [hcs]
          apply score_placement_nonneg_of_in_bounds
          intro hoob
          apply hnoob
          rw [hbx, hby]
          exact hoob
        constructor
        · rw [hsp]
          exact div_nonneg hge0 h100.le
        · rw [hsp, div_le_one h100]
          exact hb2.2
    refine ⟨⟨?_, ?_⟩, fun hnil => ?_, fun b r hbr => ?_⟩
    · rcases hmem with hm1 | hm2
      · rw [hm1]
      · linarith [hm2.1]
    · rcases hmem with hm1 | hm2
      · rw [hm1]
        norm_num
      · exact hm2.2
    · exact absurd hnil (List.cons_ne_nil best rest)
    · have hb : b = best := by
        injection hbr with h1 h2
        exact h1.symm
      subst hb
      exact ⟨hsp, hmem, hiffscore, hiffscore.trans hscoreoob⟩

lemma analyze_free_space_no_elements (a : SpaceAnalyzer)
    (hall : a.grid.all_elements = []) (hsb : a.subject_bounds = none) :
    a.analyze_free_space =
      [FreeSpaceRegion.mk (Rectangle.mk 0 0 a.canvas_width a.canvas_height) "full"
        (Rectangle.mk 0 0 a.canvas_width a.canvas_height).area 0] := by
  have hprod : a.find_product_bounds = none := by
    rw [SpaceAnalyzer.find_product_bounds, hall]
    rfl
  rw [SpaceAnalyzer.analyze_free_space, hsb, hprod]
  rfl

lemma get_best_too_wide (a : SpaceAnalyzer) (w h : ℚ) (t : String)
    (hall : a.grid.all_elements = []) (hsb : a.subject_bounds = none)
    (hw : a.canvas_width < w) :
    a.get_best_position_for_element w h t = [] := by
  have hfree := analyze_free_space_no_elements a hall hsb
  set R := FreeSpaceRegion.mk (Rectangle.mk 0 0 a.canvas_width a.canvas_height)
    "full" (Rectangle.mk 0 0 a.canvas_width a.canvas_height).area 0 with hR
  have hfit60 : decide (R.can_fit w h 60) = false := by
    apply decide_eq_false
    rintro ⟨h1, -⟩
    rw [hR] at h1
    simp only [FreeSpaceRegion.can_fit] at h1
    linarith
  have hfit20 : decide (R.can_fit w h 20) = false := by
    apply decide_eq_false
    rintro ⟨h1, -⟩
    rw [hR] at h1
    simp only [FreeSpaceRegion.can_fit] at h1
    linarith
  have hv0 : List.filter (fun r => decide (r.can_fit w h 60)) [R] = [] := by
    simp only [List.filter, hfit60]
  have hv20 : List.filter (fun r => decide (r.can_fit w h 20)) [R] = [] := by
    simp only [List.filter, hfit20]
  rw [SpaceAnalyzer.get_best_position_for_element, hfree]
  simp only [hv0, hv20, ite_self, List.isEmpty_nil, List.isEmpty_cons,
    Bool.false_eq_true, not_false_iff, eq_self_iff_true, true_and, and_true,
    List.take_succ_cons, List.take_nil, List.take_zero, ite_true,
    hsb, Option.getD_none]
  by_cases ht : t = "headline" ∨ t = "subheading"
  · rw [if_pos ht]
  · rw [if_neg ht]
    rw [if_neg ht]
    rw [show List.take 3 [R] = [R] from rfl, List.filterMap_cons]
    have hcondneg : ¬ ((0:ℚ) ≤ (a.calc_position_in_region R w h t).1 ∧
        (a.calc_position_in_region R w h t).1 + w ≤ 0 + a.canvas_width ∧
        (0:ℚ) ≤ (a.calc_position_in_region R w h t).2 ∧
        (a.calc_position_in_region R w h t).2 + h ≤ 0 + a.canvas_height) := by
      rw [SpaceAnalyzer.calc_position_in_region, if_neg ht]
      by_cases hb : t = "badge"
      · rw [if_pos hb]
        have hrt : ¬ (R.region_type = "bottom" ∨ R.region_type = "top") := by
          rw [hR]
          rintro (hh | hh) <;> simp at hh
        rw [if_neg hrt]
        rintro ⟨-, h2, -, -⟩
        rw [hR] at h2
        simp only at h2
        linarith
      · rw [if_neg hb]
        by_cases hi : t = "product_image" ∨ t = "image"
        · rw [if_pos hi]
          rintro ⟨h1, -, -, -⟩
          rw [hR] at h1
          simp only at h1
          linarith
        · rw [if_neg hi]
          rintro ⟨h1, -, -, -⟩
          rw [hR] at h1
          simp only at h1
          linarith
    rw [if_neg hcondneg, List.filterMap_nil]

lemma gen_grid_too_wide (g : CandidateGenerator) (w h : ℚ) (t : String)
    (hsb : g.scorer.subject_bounds = none) (hw : g.canvas_width < w) :
    g.gen_grid_based w h t = [] := by
  rw [CandidateGenerator.gen_grid_based, hsb]
  simp only
  rw [arithSeq, if_pos (by linarith : g.canvas_width - 50 - w < 50)]
  rfl

lemma gen_anchor_no_elements (g : CandidateGenerator) (w h : ℚ) (t : String)
    (hall : g.grid.all_elements = []) : g.gen_anchor_based w h t = [] := by
  rw [CandidateGenerator.gen_anchor_based, hall]
  rfl

/-- C2 (amended): when `element_to_place.width > canvas_width` and the
request has no existing elements and no subject bounds, `generate_candidates`
returns an empty list and the facade returns the fallback response (with
existing elements the anchor strategy still emits out-of-bounds candidates
and no fallback occurs). -/
theorem c2_too_wide_fallback (req : PlacementRequest)
    (hel : req.elements = []) (hsb : req.subject_bounds = none)
    (hw : req.canvas_w < req.element_to_place.width) :
    smart_candidates req = [] ∧ smart_placement req = fallback_response := by
  have hc : smart_candidates req = [] := by
    rw [smart_candidates, hel, hsb]
    simp only [List.foldl_nil, Option.map_none']
    rw [CandidateGenerator.generate_candidates]
    simp only
    rw [get_best_too_wide _ _ _ _ rfl rfl hw, gen_grid_too_wide _ _ _ _ rfl hw,
      gen_anchor_no_elements _ _ _ _ rfl]
    rfl
  exact ⟨hc, by rw [smart_placement, hc]⟩

/-- Shared concrete request: 100×100 canvas, one 50×50 image element, placing
a 200×50 logo (wider than the canvas). -/
def exReq : PlacementRequest :=
  PlacementRequest.mk 100 100 [CanvasElement.mk "e" "image" 0 0 50 50 none]
    (ElementToPlace.mk "logo" 200 50) none

lemma exReq_candidates : smart_candidates exReq =
    [PlacementCandidate.mk 0 70 (-100) ["OUT OF BOUNDS - Invalid"] "anchor-below",
     PlacementCandidate.mk 0 (-70) (-100) ["OUT OF BOUNDS - Invalid"] "anchor-above",
     PlacementCandidate.mk 70 0 (-100) ["OUT OF BOUNDS - Invalid"] "anchor-right",
     PlacementCandidate.mk (-220) 0 (-100) ["OUT OF BOUNDS - Invalid"] "anchor-left"] := by
  with_unfolding_all rfl

lemma exReq_eval : smart_placement exReq =
    PlacementResponse.mk 0 70 (-1)
      "anchor-below placement. OUT OF BOUNDS - Invalid" := by
  with_unfolding_all rfl

/-- C1 (counterexample): for `exReq` the response is (0, 70, −1) — not the
fallback — yet the returned position violates `x + width ≤ canvas_width`
(0 + 200 > 100): invalid −100 candidates are returned as-is by the facade. -/
theorem c1_counterexample :
    ¬ ((smart_placement exReq).x = 40 ∧ (smart_placement exReq).y = 40 ∧
      (smart_placement exReq).confidence = 3/10) ∧
    ¬ (((smart_placement exReq).x : ℚ) + exReq.element_to_place.width ≤
      exReq.canvas_w) := by
  rw [exReq_eval]
  constructor
  · rintro ⟨-, -, hc⟩
    norm_num at hc
  · intro hx
    simp only [exReq] at hx
    norm_num at hx

/-- Witness request for C1/C3: empty 300×300 canvas, 100×100 logo. -/
def wReq : PlacementRequest :=
  PlacementRequest.mk 300 300 [] (ElementToPlace.mk "logo" 100 100) none

lemma wReq_candidates : smart_candidates wReq =
    [PlacementCandidate.mk 100 100 100
      ["No collisions", "Empty region", "Good margins"] "space-analysis",
     PlacementCandidate.mk 50 50 100
      ["No collisions", "Empty region", "Good margins"] "grid",
     PlacementCandidate.mk 50 130 100
      ["No collisions", "Empty region", "Good margins"] "grid",
     PlacementCandidate.mk 130 50 100
      ["No collisions", "Empty region", "Good margins"] "grid",
     PlacementCandidate.mk 130 130 100
      ["No collisions", "Empty region", "Good margins"] "grid"] := by
  with_unfolding_all rfl

lemma wReq_eval : smart_placement wReq =
    PlacementResponse.mk 100 100 1
      "space-analysis placement. No collisions Empty region Good margins" := by
  with_unfolding_all rfl

/-- Witness for C1: a non-fallback, nonnegative-confidence response lies
inside the canvas. -/
theorem c1_witness :
    (¬ ((smart_placement wReq).x = 40 ∧ (smart_placement wReq).y = 40 ∧
        (smart_placement wReq).confidence = 3/10) ∧
      0 ≤ (smart_placement wReq).confidence) ∧
    (0 ≤ (smart_placement wReq).x ∧ 0 ≤ (smart_placement wReq).y ∧
      ((smart_placement wReq).x : ℚ) + wReq.element_to_place.width ≤ wReq.canvas_w ∧
      ((smart_placement wReq).y : ℚ) + wReq.element_to_place.height ≤ wReq.canvas_h) :=
  ⟨⟨by rw [wReq_eval]; rintro ⟨hx, -, -⟩; norm_num at hx,
    by rw [wReq_eval]; norm_num⟩,
   c1_nonfallback_nonneg_in_bounds wReq
     (by rw [wReq_eval]; rintro ⟨hx, -, -⟩; norm_num at hx)
     (by rw [wReq_eval]; norm_num)⟩

/-- C3 (counterexample): for `exReq` the confidence is −1, outside [0, 1]. -/
theorem c3_counterexample : (smart_placement exReq).confidence < 0 := by
  rw [exReq_eval]
  norm_num

/-- Witness request for C2: no elements, no subject bounds, logo wider than
the canvas. -/
def wReq2 : PlacementRequest :=
  PlacementRequest.mk 100 100 [] (ElementToPlace.mk "logo" 200 50) none

/-- Witness for C3: at `wReq` the confidence is in range, equals the top
score over 100 and is not the −1 sentinel; at `wReq2` the fallback confidence
is 0.3. -/
theorem c3_witness :
    (-1 ≤ (smart_placement wReq).confidence ∧ (smart_placement wReq).confidence ≤ 1) ∧
    (smart_placement wReq).confidence =
      (PlacementCandidate.mk 100 100 100
        ["No collisions", "Empty region", "Good margins"] "space-analysis").score
        / 100 ∧
    ((smart_placement wReq).confidence = -1 ↔
      (PlacementCandidate.mk 100 100 100
        ["No collisions", "Empty region", "Good margins"] "space-analysis").score
        = -100) ∧
    (smart_placement wReq2).confidence = 3/10 :=
  ⟨(c3_confidence_range wReq).1,
   ((c3_confidence_range wReq).2.2 _ _ wReq_candidates).1,
   ((c3_confidence_range wReq).2.2 _ _ wReq_candidates).2.2.1,
   (c3_confidence_range wReq2).2.1 (by with_unfolding_all rfl)⟩

/-- C2 (counterexample): `exReq` has `element_to_place.width > canvas_width`
and one existing element; the generator returns four (invalid) anchor-based
candidates rather than an empty list, and the facade does not fall back. -/
theorem c2_counterexample :
    exReq.canvas_w < exReq.element_to_place.width ∧
    smart_candidates exReq ≠ [] ∧
    smart_placement exReq ≠ fallback_response := by
  refine ⟨by norm_num [exReq], ?_, ?_⟩
  · rw [exReq_candidates]
    exact List.cons_ne_nil _ _
  · rw [exReq_eval]
    intro hcontra
    rw [fallback_response] at hcontra
    injection hcontra with h1 h2 h3 h4
    norm_num at h3

/-- Witness for C2: too-wide element on an element-free, boundless request
yields no candidates and the fallback. -/
theorem c2_witness :
    (wReq2.elements = [] ∧ wReq2.subject_bounds = none ∧
      wReq2.canvas_w < wReq2.element_to_place.width) ∧
    (smart_candidates wReq2 = [] ∧ smart_placement wReq2 = fallback_response) :=
  ⟨⟨rfl, rfl, by norm_num [wReq2]⟩,
   c2_too_wide_fallback wReq2 rfl rfl (by norm_num [wReq2])⟩

end ReTexture
